import Mathlib

/-! BNO080 sensor driver (src/src/sensors/bno080sensor.cpp).

A shallow embedding of the driver class BNO080Sensor: motionSetup, motionLoop,
getSensorState, sendData and startCalibration.

Conventions of the embedding.

* The member fields of the C++ object are the fields of the structure Sensor.
  Every method is a function from the state and the answers of the
  collaborators (peripheral library, clock) to the new state and the list of
  side effects it performed, in program order.
* Quaternions and floating point payloads are kept abstract: the type Q of
  quaternions and the type F of floats are parameters, and the two operations
  of the quaternion class the driver calls (operator*= and equalsWithEpsilon)
  are fields of Build.  The driver only moves these values around.
* uint8_t values are natural numbers reduced modulo 256 where the code assigns
  them; the millisecond counter is the 32 bit unsigned long of the target, so
  the sum lastData + 1000 is reduced modulo 2^32.
-/

namespace BNO080

/-! ## Constants and tags -/

/-- Sensor variant tag held in the member sensorType. -/
inductive ImuType where
  | IMU_BNO080
  | IMU_BNO085
  | IMU_BNO086
  deriving DecidableEq, Repr

/-- Result of getSensorState. -/
inductive SensorStatus where
  | SENSOR_OFFLINE
  | SENSOR_OK
  | SENSOR_ERROR
  deriving DecidableEq, Repr

/-- Packet type tag, last argument of the transport primitives. -/
inductive PacketType where
  | PACKET_ROTATION_DATA
  | PACKET_MAGNETOMETER_ACCURACY
  | PACKET_ACCEL
  | PACKET_TAP
  | PACKET_ERROR
  deriving DecidableEq, Repr

/-- Kind tag of a rotation packet. -/
inductive DataType where
  | DATA_TYPE_NORMAL
  | DATA_TYPE_CORRECTION
  deriving DecidableEq, Repr

/-- Indicator a LEDMGR call addresses. -/
inductive Led where
  | LOADING_LED
  | CALIBRATING_LED
  deriving DecidableEq, Repr

/-- Status passed to setLedStatus. -/
inductive LedStatus where
  | LED_STATUS_IMU_ERROR
  deriving DecidableEq, Repr

/-- Lines written to the serial console, one constructor per group of
Serial.print calls that make up a line. -/
inductive SerialLine where
  | cantConnect (sensorType : ImuType)
  | connected (sensorType : ImuType) (addr : Nat)
  | wasReset (sensorId : Nat) (rr : Nat)
  deriving DecidableEq, Repr

/-- Declared type of the member lastReset.  The declaration is in the header
sensors/bno080sensor.h, which is not among the sources; the code assigns both
the literal -1 and uint8_t values to it, so the two candidates are a signed
integer wide enough for both, and uint8_t. -/
inductive LastResetType where
  | signedInt
  | uint8
  deriving DecidableEq, Repr

/-- Value read back from a member of the given type after assigning v. -/
def LastResetType.conv : LastResetType → Int → Int
  | .signedInt, v => v
  | .uint8, v => v % 256

/-- Modulus of the millisecond counter (unsigned long on the target). -/
def ULONG_MOD : Nat := 2 ^ 32

/-- Build-time configuration and the quaternion operations used by the driver. -/
structure Build (Q : Type) where
  /-- whether the build flag BNO_USE_ARVR_STABILIZATION is defined -/
  BNO_USE_ARVR_STABILIZATION : Bool
  /-- value of the constant OPTIMIZE_UPDATES -/
  OPTIMIZE_UPDATES : Bool
  /-- declared type of lastReset -/
  lastResetType : LastResetType
  /-- Quat::operator*= : mul a b is the value of a after a *= b -/
  mul : Q → Q → Q
  /-- Quat::equalsWithEpsilon : equalsWithEpsilon a b is a.equalsWithEpsilon(b) -/
  equalsWithEpsilon : Q → Q → Bool

/-! ## Side effects -/

/-- One call of a collaborator that has an effect outside the object. -/
inductive Effect (Q F : Type) where
  | sendRotationData (q : Q) (dataType : DataType) (accuracy : Nat) (sensorId : Nat)
      (packetType : PacketType)
  | sendMagnetometerAccuracy (value : F) (sensorId : Nat) (packetType : PacketType)
  | sendVector (x y z : F) (packetType : PacketType)
  | sendByte (value : Nat) (sensorId : Nat) (packetType : PacketType)
  | ledPattern (led : Led) (onMs offMs repeatMs : Nat)
  | ledBlink (led : Led) (durationMs : Nat)
  | ledOn (led : Led)
  | ledOff (led : Led)
  | setLedStatus (status : LedStatus)
  | enableARVRStabilizedRotationVector (intervalMs : Nat)
  | enableARVRStabilizedGameRotationVector (intervalMs : Nat)
  | enableRotationVector (intervalMs : Nat)
  | enableGameRotationVector (intervalMs : Nat)
  | enableTapDetector (intervalMs : Nat)
  | calibrateGyro
  | requestCalibrationStatus
  | getReadings
  | saveCalibration
  | delay (ms : Nat)
  | serial (line : SerialLine)
  deriving DecidableEq, Repr

/-! ## State -/

/-- Member fields of a BNO080Sensor object. -/
structure Sensor (Q F : Type) where
  sensorId : Nat
  sensorType : ImuType
  addr : Nat
  intPin : Nat
  sensorOffset : Q
  useMagnetometerAllTheTime : Bool
  useMagnetometerCorrection : Bool
  working : Bool
  configured : Bool
  lastReset : Int
  lastData : Nat
  quaternion : Q
  magQuaternion : Q
  lastQuatSent : Q
  calibrationAccuracy : Nat
  magCalibrationAccuracy : Nat
  magneticAccuracyEstimate : F
  newData : Bool
  newMagData : Bool
  tap : Nat
  deriving DecidableEq, Repr

/-! ## Answers of the collaborators -/

/-- Answers read by one call of motionSetup. -/
structure SetupEnv where
  /-- result of imu.begin(addr, Wire, intPin) -/
  begin : Bool
  /-- result of imu.resetReason() on line 88 -/
  resetReason : Nat
  /-- result of millis() on line 89 -/
  millis : Nat
  deriving DecidableEq, Repr

/-- Answers read by one pass through the body of the read loop of motionLoop
(lines 99 to 141), that is, one pass for which imu.dataAvailable() was true. -/
structure Report (Q F : Type) where
  /-- result of millis() on line 100 -/
  millis : Nat
  hasNewQuat : Bool
  /-- outputs of imu.getQuat: quaternion, magnetic accuracy estimate, accuracy -/
  quat : Q
  quatMagneticAccuracy : F
  quatAccuracy : Nat
  hasNewGameQuat : Bool
  /-- outputs of imu.getGameQuat: quaternion, accuracy -/
  gameQuat : Q
  gameQuatAccuracy : Nat
  hasNewMagQuat : Bool
  /-- outputs of imu.getMagQuat: quaternion, magnetic accuracy estimate, accuracy -/
  magQuat : Q
  magQuatMagneticAccuracy : F
  magQuatAccuracy : Nat
  getTapDetected : Bool
  getTapDetector : Nat
  hasNewAccel : Bool
  accelX : F
  accelY : F
  accelZ : F
  I2CTimedOut : Bool
  deriving DecidableEq, Repr

/-- Answers read by one call of motionLoop.  The peripheral answers
dataAvailable() with true once for every element of reports, in order, and
with false afterwards. -/
structure LoopEnv (Q F : Type) where
  reports : List (Report Q F)
  /-- result of millis() in the condition on line 143 -/
  millisCheck : Nat
  /-- result of millis() on line 147 -/
  millisStamp : Nat
  /-- result of imu.resetReason() on line 148 -/
  resetReason : Nat
  deriving DecidableEq, Repr

/-! ## The methods -/

section Methods

variable {Q F : Type}

/-- Helper signalAssert (lines 30 to 33). -/
def signalAssert : List (Effect Q F) :=
  [Effect.ledPattern Led.LOADING_LED 50 50 200]

/-- Helper sendResetReason (lines 35 to 38). -/
def sendResetReason (reason sensorId : Nat) : List (Effect Q F) :=
  [Effect.sendByte reason sensorId PacketType.PACKET_ERROR]

/-- Condition of line 70: the stabilized streams are used. -/
def useStabilizedStreams (b : Build Q) (s : Sensor Q F) : Bool :=
  b.BNO_USE_ARVR_STABILIZATION &&
    (s.sensorType == ImuType.IMU_BNO085 || s.sensorType == ImuType.IMU_BNO086)

/-- Stream selection of motionSetup (lines 70 to 86). -/
def enableStreams (b : Build Q) (s : Sensor Q F) : List (Effect Q F) :=
  if useStabilizedStreams b s then
    if s.useMagnetometerAllTheTime then
      [Effect.enableARVRStabilizedRotationVector 10]
    else
      Effect.enableARVRStabilizedGameRotationVector 10 ::
        (if s.useMagnetometerCorrection then [Effect.enableRotationVector 1000] else [])
  else
    if s.useMagnetometerAllTheTime then
      [Effect.enableRotationVector 10]
    else
      Effect.enableGameRotationVector 10 ::
        (if s.useMagnetometerCorrection then [Effect.enableRotationVector 1000] else [])

/-- BNO080Sensor::motionSetup (lines 41 to 92). -/
def motionSetup (b : Build Q) (s : Sensor Q F) (env : SetupEnv) :
    Sensor Q F × List (Effect Q F) :=
  if !env.begin then
    (s, Effect.serial (SerialLine.cantConnect s.sensorType) :: signalAssert)
  else
    ({ s with
        lastReset := b.lastResetType.conv ((env.resetReason % 256 : Nat) : Int)
        lastData := env.millis
        working := true
        configured := true },
     Effect.serial (SerialLine.connected s.sensorType s.addr) ::
       (enableStreams b s ++ [Effect.enableTapDetector 100]))

/-- Condition of line 101: the absolute-heading policy is active. -/
def absoluteHeadingPolicy (s : Sensor Q F) : Bool :=
  s.useMagnetometerAllTheTime || !s.useMagnetometerCorrection

/-- Orientation part of the loop body (lines 101 to 128). -/
def readOrientation (b : Build Q) (s : Sensor Q F) (r : Report Q F) : Sensor Q F :=
  if absoluteHeadingPolicy s then
    if r.hasNewQuat then
      let s1 : Sensor Q F :=
        { s with
            quaternion := b.mul r.quat s.sensorOffset
            magneticAccuracyEstimate := r.quatMagneticAccuracy
            calibrationAccuracy := r.quatAccuracy % 256 }
      if !b.OPTIMIZE_UPDATES || !b.equalsWithEpsilon s1.lastQuatSent s1.quaternion then
        { s1 with newData := true, lastQuatSent := s1.quaternion }
      else
        s1
    else
      s
  else
    let s1 : Sensor Q F :=
      if r.hasNewGameQuat then
        { s with
            quaternion := b.mul r.gameQuat s.sensorOffset
            calibrationAccuracy := r.gameQuatAccuracy % 256
            newData := true }
      else
        s
    if r.hasNewMagQuat then
      { s1 with
          magQuaternion := b.mul r.magQuat s1.sensorOffset
          magneticAccuracyEstimate := r.magQuatMagneticAccuracy
          magCalibrationAccuracy := r.magQuatAccuracy % 256
          newMagData := true }
    else
      s1

/-- One pass through the body of the read loop, up to the test on line 140
(lines 99 to 139). -/
def loopBody (b : Build Q) (s : Sensor Q F) (r : Report Q F) :
    Sensor Q F × List (Effect Q F) :=
  let s1 : Sensor Q F :=
    { s with lastReset := b.lastResetType.conv (-1), lastData := r.millis }
  let s2 := readOrientation b s1 r
  let s3 : Sensor Q F :=
    if r.getTapDetected then { s2 with tap := r.getTapDetector % 256 } else s2
  (s3, if r.hasNewAccel then
         [Effect.sendVector r.accelX r.accelY r.accelZ PacketType.PACKET_ACCEL]
       else [])

/-- Condition of line 140: the loop is left after this pass. -/
def leavesLoop (s : Sensor Q F) (r : Report Q F) : Bool :=
  s.intPin == 255 || r.I2CTimedOut

/-- The read loop of motionLoop (lines 97 to 142) on the reports the
peripheral still holds. -/
def readLoop (b : Build Q) (s : Sensor Q F) :
    List (Report Q F) → Sensor Q F × List (Effect Q F)
  | [] => (s, [])
  | r :: rs =>
    let p := loopBody b s r
    if leavesLoop p.1 r then p
    else
      let q := readLoop b p.1 rs
      (q.1, p.2 ++ q.2)

/-- Condition of line 143. -/
def isStale (s : Sensor Q F) (millisCheck : Nat) : Bool :=
  decide ((s.lastData + 1000) % ULONG_MOD < millisCheck) && s.configured

/-- Health check of motionLoop (lines 143 to 158). -/
def healthCheck (b : Build Q) (s : Sensor Q F) (env : LoopEnv Q F) :
    Sensor Q F × List (Effect Q F) :=
  if isStale s env.millisCheck then
    let rr : Nat := env.resetReason % 256
    let s1 : Sensor Q F := { s with working := false, lastData := env.millisStamp }
    if (rr : Int) ≠ s1.lastReset then
      ({ s1 with lastReset := b.lastResetType.conv (rr : Int) },
       Effect.setLedStatus LedStatus.LED_STATUS_IMU_ERROR ::
         (sendResetReason rr s1.sensorId ++
           [Effect.serial (SerialLine.wasReset s1.sensorId rr)]))
    else
      (s1,
       [Effect.setLedStatus LedStatus.LED_STATUS_IMU_ERROR,
        Effect.serial (SerialLine.wasReset s1.sensorId rr)])
  else
    (s, [])

/-- BNO080Sensor::motionLoop (lines 94 to 159). -/
def motionLoop (b : Build Q) (s : Sensor Q F) (env : LoopEnv Q F) :
    Sensor Q F × List (Effect Q F) :=
  let p := readLoop b s env.reports
  let q := healthCheck b p.1 env
  (q.1, p.2 ++ q.2)

/-- Base class accessor isWorking(). -/
def isWorking (s : Sensor Q F) : Bool := s.working

/-- BNO080Sensor::getSensorState (lines 161 to 163). -/
def getSensorState (s : Sensor Q F) : SensorStatus :=
  if s.lastReset > 0 then SensorStatus.SENSOR_ERROR
  else if isWorking s then SensorStatus.SENSOR_OK
  else SensorStatus.SENSOR_OFFLINE

/-- Primary sample part of sendData (lines 167 to 183). -/
def sendPrimary (s : Sensor Q F) : Sensor Q F × List (Effect Q F) :=
  if s.newData then
    ({ s with newData := false },
     Effect.sendRotationData s.quaternion DataType.DATA_TYPE_NORMAL s.calibrationAccuracy
         s.sensorId PacketType.PACKET_ROTATION_DATA ::
       (if s.useMagnetometerAllTheTime then
          [Effect.sendMagnetometerAccuracy s.magneticAccuracyEstimate s.sensorId
             PacketType.PACKET_MAGNETOMETER_ACCURACY]
        else []))
  else (s, [])

/-- Magnetometer correction part of sendData (lines 184 to 189). -/
def sendCorrection (s : Sensor Q F) : Sensor Q F × List (Effect Q F) :=
  if s.newMagData then
    ({ s with newMagData := false },
     [Effect.sendRotationData s.magQuaternion DataType.DATA_TYPE_CORRECTION
        s.magCalibrationAccuracy s.sensorId PacketType.PACKET_ROTATION_DATA,
      Effect.sendMagnetometerAccuracy s.magneticAccuracyEstimate s.sensorId
        PacketType.PACKET_MAGNETOMETER_ACCURACY])
  else (s, [])

/-- Tap part of sendData (lines 190 to 194). -/
def sendTap (s : Sensor Q F) : Sensor Q F × List (Effect Q F) :=
  if s.tap ≠ 0 then
    ({ s with tap := 0 }, [Effect.sendByte s.tap s.sensorId PacketType.PACKET_TAP])
  else (s, [])

/-- BNO080Sensor::sendData (lines 165 to 195). -/
def sendData (s : Sensor Q F) : Sensor Q F × List (Effect Q F) :=
  let p := sendPrimary s
  let q := sendCorrection p.1
  let t := sendTap q.1
  (t.1, p.2 ++ q.2 ++ t.2)

/-- One pass through the body of the do-while loop of startCalibration
(lines 205 to 210). -/
def calibrationCycle : List (Effect Q F) :=
  [Effect.ledOn Led.CALIBRATING_LED, Effect.requestCalibrationStatus, Effect.delay 20,
   Effect.getReadings, Effect.ledOff Led.CALIBRATING_LED, Effect.delay 20]

/-- The do-while loop of startCalibration (lines 203 to 211) on the successive
answers of imu.calibrationComplete().  The result is none when the answers run
out before one of them is true: the loop has not been left. -/
def calibrationLoop : List Bool → Option (List (Effect Q F))
  | [] => none
  | c :: cs =>
    if c then some calibrationCycle
    else (calibrationLoop cs).map (fun es => calibrationCycle ++ es)

/-- BNO080Sensor::startCalibration (lines 197 to 213). -/
def startCalibration (_calibrationType : Int) (answers : List Bool) :
    Option (List (Effect Q F)) :=
  (calibrationLoop answers).map (fun es =>
    [Effect.ledPattern Led.CALIBRATING_LED 20 20 10,
     Effect.ledBlink Led.CALIBRATING_LED 2000,
     Effect.calibrateGyro] ++ es ++ [Effect.saveCalibration])

end Methods

/-! ## Observations and runs -/

section Runs

variable {Q F : Type}

/-- The fault reports among a list of effects: value and sensor identity of
every sendByte call with packet type PACKET_ERROR, in order. -/
def faultReports : List (Effect Q F) → List (Nat × Nat)
  | [] => []
  | Effect.sendByte v i PacketType.PACKET_ERROR :: es => (v, i) :: faultReports es
  | _ :: es => faultReports es

/-- The calls of the transport primitives among a list of effects, in order. -/
def upstream : List (Effect Q F) → List (Effect Q F)
  | [] => []
  | Effect.sendRotationData q d a i t :: es =>
    Effect.sendRotationData q d a i t :: upstream es
  | Effect.sendMagnetometerAccuracy v i t :: es =>
    Effect.sendMagnetometerAccuracy v i t :: upstream es
  | Effect.sendVector x y z t :: es => Effect.sendVector x y z t :: upstream es
  | Effect.sendByte v i t :: es => Effect.sendByte v i t :: upstream es
  | _ :: es => upstream es

/-- Successive calls of motionLoop, one per element of the list. -/
def runLoops (b : Build Q) (s : Sensor Q F) :
    List (LoopEnv Q F) → Sensor Q F × List (Effect Q F)
  | [] => (s, [])
  | env :: envs =>
    let p := motionLoop b s env
    let q := runLoops b p.1 envs
    (q.1, p.2 ++ q.2)

/-- A call of the external scheduler on a session that has been set up:
motionLoop with the answers it reads, or sendData. -/
inductive Call (Q F : Type) where
  | poll (env : LoopEnv Q F)
  | flush

/-- One scheduler call. -/
def step (b : Build Q) (s : Sensor Q F) : Call Q F → Sensor Q F × List (Effect Q F)
  | Call.poll env => motionLoop b s env
  | Call.flush => sendData s

/-- A sequence of scheduler calls, in order. -/
def run (b : Build Q) (s : Sensor Q F) :
    List (Call Q F) → Sensor Q F × List (Effect Q F)
  | [] => (s, [])
  | c :: cs =>
    let p := step b s c
    let q := run b p.1 cs
    (q.1, p.2 ++ q.2)

/-- The raw quaternions a report offers to the getters. -/
def Report.raws (r : Report Q F) : List Q := [r.quat, r.gameQuat, r.magQuat]

/-- The raw quaternions the peripheral offers during a call. -/
def Call.raws : Call Q F → List Q
  | Call.poll env => env.reports.flatMap Report.raws
  | Call.flush => []

/-- Report intervals of the absolute-heading streams (stabilized or plain
rotation vector) enabled by a list of effects. -/
def absoluteIntervals : List (Effect Q F) → List Nat
  | [] => []
  | Effect.enableARVRStabilizedRotationVector n :: es => n :: absoluteIntervals es
  | Effect.enableRotationVector n :: es => n :: absoluteIntervals es
  | _ :: es => absoluteIntervals es

/-- Report intervals of the relative-rotation streams (stabilized or plain
game rotation vector) enabled by a list of effects. -/
def relativeIntervals : List (Effect Q F) → List Nat
  | [] => []
  | Effect.enableARVRStabilizedGameRotationVector n :: es => n :: relativeIntervals es
  | Effect.enableGameRotationVector n :: es => n :: relativeIntervals es
  | _ :: es => relativeIntervals es

/-- The quaternions of the rotation packets of kind d among a list of
effects, in order. -/
def rotationsOf (d : DataType) : List (Effect Q F) → List Q
  | [] => []
  | Effect.sendRotationData q k _ _ _ :: es =>
    if k = d then q :: rotationsOf d es else rotationsOf d es
  | _ :: es => rotationsOf d es

/-- The tap events among a list of effects: value and sensor identity of every
sendByte call with packet type PACKET_TAP, in order. -/
def tapReports : List (Effect Q F) → List (Nat × Nat)
  | [] => []
  | Effect.sendByte v i PacketType.PACKET_TAP :: es => (v, i) :: tapReports es
  | _ :: es => tapReports es

/-- The state after successive passes through the body of the read loop, one
per report, whatever calls of motionLoop they belong to. -/
def passes (b : Build Q) (s : Sensor Q F) : List (Report Q F) → Sensor Q F
  | [] => s
  | r :: rs => passes b (loopBody b s r).1 rs

/-- Specification of the pending tap code: the code, as a uint8_t, of the
most recent report with getTapDetected, and the code t held before if there
is none. -/
def lastTap (t : Nat) : List (Report Q F) → Nat
  | [] => t
  | r :: rs => lastTap (if r.getTapDetected then r.getTapDetector % 256 else t) rs

/-- Specification of the reports one call of motionLoop consumes on interrupt
line intPin: those up to and including the first one after which line 140
leaves the loop. -/
def consumed (intPin : Nat) : List (Report Q F) → List (Report Q F)
  | [] => []
  | r :: rs => if intPin == 255 || r.I2CTimedOut then [r] else r :: consumed intPin rs

/-- Specification of the primary raw sample one pass consumes from a report:
with the absolute-heading policy active (pol true) the absolute quaternion
when hasNewQuat is set, otherwise the relative quaternion when
hasNewGameQuat is set. -/
def primaryRaw (pol : Bool) (r : Report Q F) : Option Q :=
  if pol then (if r.hasNewQuat then some r.quat else none)
  else (if r.hasNewGameQuat then some r.gameQuat else none)

/-- Specification of the correction raw sample one pass consumes from a
report: none with the absolute-heading policy active, otherwise the
magnetometer-correction quaternion when hasNewMagQuat is set. -/
def correctionRaw (pol : Bool) (r : Report Q F) : Option Q :=
  if pol then none else (if r.hasNewMagQuat then some r.magQuat else none)

/-- Specification of a quaternion field after consuming the raw samples of a
list in order: r * off for the last sample r, and the old value q0 when the
list is empty. -/
def offsetLast (b : Build Q) (off : Q) (q0 : Q) : List Q → Q
  | [] => q0
  | r :: rs => offsetLast b off (b.mul r off) rs

/-- Specification of lastQuatSent after consuming the raw samples of a list
under the absolute-heading policy: a sample r is marked dirty, and r * off
takes the place of lq, when OPTIMIZE_UPDATES is off or r * off is not within
epsilon of lq. -/
def dedupLast (b : Build Q) (off : Q) (lq : Q) : List Q → Q
  | [] => lq
  | r :: rs =>
    if !b.OPTIMIZE_UPDATES || !b.equalsWithEpsilon lq (b.mul r off) then
      dedupLast b off (b.mul r off) rs
    else dedupLast b off lq rs

/-- Specification of the dirty mark set by the raw samples of a list under
the absolute-heading policy: whether one of them is marked dirty. -/
def dedupDirty (b : Build Q) (off : Q) (lq : Q) : List Q → Bool
  | [] => false
  | r :: rs =>
    if !b.OPTIMIZE_UPDATES || !b.equalsWithEpsilon lq (b.mul r off) then true
    else dedupDirty b off lq rs

/-- The primary raw samples a scheduler call consumes. -/
def Call.primaryRaws (pin : Nat) (pol : Bool) : Call Q F → List Q
  | Call.poll env => (consumed pin env.reports).filterMap (primaryRaw pol)
  | Call.flush => []

/-- The correction raw samples a scheduler call consumes. -/
def Call.correctionRaws (pin : Nat) (pol : Bool) : Call Q F → List Q
  | Call.poll env => (consumed pin env.reports).filterMap (correctionRaw pol)
  | Call.flush => []

end Runs

/-! ## A concrete instance

Quaternions on an integer grid, with the Hamilton product and a squared
distance test, instantiate the abstract quaternion type so that the model can
be evaluated on concrete inputs. -/

/-- Quaternion with integer components. -/
structure IQuat where
  x : Int
  y : Int
  z : Int
  w : Int
  deriving DecidableEq, Repr

/-- Hamilton product a * q. -/
def IQuat.mul (a q : IQuat) : IQuat :=
  { x := a.w * q.x + a.x * q.w + a.y * q.z - a.z * q.y
    y := a.w * q.y + a.y * q.w + a.z * q.x - a.x * q.z
    z := a.w * q.z + a.z * q.w + a.x * q.y - a.y * q.x
    w := a.w * q.w - a.x * q.x - a.y * q.y - a.z * q.z }

/-- Squared length of the difference of two quaternions. -/
def IQuat.distSq (a q : IQuat) : Int :=
  (a.x - q.x) * (a.x - q.x) + (a.y - q.y) * (a.y - q.y) + (a.z - q.z) * (a.z - q.z) +
    (a.w - q.w) * (a.w - q.w)

/-- Epsilon test on the grid: the squared distance is below 100. -/
def IQuat.equalsWithEpsilon (a q : IQuat) : Bool :=
  decide (IQuat.distSq a q < 100)

/-- Identity rotation on the grid. -/
def IQuat.one : IQuat := { x := 0, y := 0, z := 0, w := 1 }

/-- Build with both options on or off as given, over the integer grid. -/
def gridBuild (stabilization optimize : Bool) (ty : LastResetType) : Build IQuat :=
  { BNO_USE_ARVR_STABILIZATION := stabilization
    OPTIMIZE_UPDATES := optimize
    lastResetType := ty
    mul := IQuat.mul
    equalsWithEpsilon := IQuat.equalsWithEpsilon }

/-- A freshly constructed session with identity 3 on interrupt line 255
(polled), not yet set up. -/
def freshSensor (magAlways magCorrection : Bool) : Sensor IQuat Int :=
  { sensorId := 3
    sensorType := ImuType.IMU_BNO085
    addr := 74
    intPin := 255
    sensorOffset := IQuat.one
    useMagnetometerAllTheTime := magAlways
    useMagnetometerCorrection := magCorrection
    working := false
    configured := false
    lastReset := 0
    lastData := 0
    quaternion := IQuat.one
    magQuaternion := IQuat.one
    lastQuatSent := IQuat.one
    calibrationAccuracy := 0
    magCalibrationAccuracy := 0
    magneticAccuracyEstimate := 999
    newData := false
    newMagData := false
    tap := 0 }

/-- A report read at clock value now in which a fresh absolute quaternion and
a fresh relative quaternion, both equal to q, are the only news. -/
def quatReport (now : Nat) (q : IQuat) : Report IQuat Int :=
  { millis := now
    hasNewQuat := true
    quat := q
    quatMagneticAccuracy := 0
    quatAccuracy := 3
    hasNewGameQuat := true
    gameQuat := q
    gameQuatAccuracy := 3
    hasNewMagQuat := false
    magQuat := IQuat.one
    magQuatMagneticAccuracy := 0
    magQuatAccuracy := 0
    getTapDetected := false
    getTapDetector := 0
    hasNewAccel := false
    accelX := 0
    accelY := 0
    accelZ := 0
    I2CTimedOut := false }

/-- A report read at clock value now in which a fresh relative quaternion q
is the only news: hasNewGameQuat is true and hasNewQuat is false. -/
def gameReport (now : Nat) (q : IQuat) : Report IQuat Int :=
  { quatReport now q with hasNewQuat := false }

/-- A loop environment in which the peripheral holds the given reports and
the clock of the health check reads now. -/
def withData (reports : List (Report IQuat Int)) (now rr : Nat) : LoopEnv IQuat Int :=
  { reports := reports, millisCheck := now, millisStamp := now, resetReason := rr }

/-- A loop environment in which the peripheral has no data, the clock reads
now and resetReason answers rr. -/
def noData (now rr : Nat) : LoopEnv IQuat Int :=
  { reports := [], millisCheck := now, millisStamp := now, resetReason := rr }

end BNO080

namespace BNO080

/-! ## Basic facts -/

section Facts

variable {Q F : Type}

theorem conv_uint8 (ty : LastResetType) (n : Nat) :
    ty.conv ((n % 256 : Nat) : Int) = ((n % 256 : Nat) : Int) := by
  cases ty
  · rfl
  · simp only [LastResetType.conv]
    omega

theorem readLoop_nil (b : Build Q) (s : Sensor Q F) :
    readLoop b s [] = (s, []) := rfl

theorem motionLoop_noData (b : Build Q) (s : Sensor Q F) (env : LoopEnv Q F)
    (h : env.reports = []) : motionLoop b s env = healthCheck b s env := by
  simp [motionLoop, h, readLoop]

theorem faultReports_append (es fs : List (Effect Q F)) :
    faultReports (es ++ fs) = faultReports es ++ faultReports fs := by
  induction es with
  | nil => rfl
  | cons e es ih =>
    cases e <;> simp [faultReports, ih]
    case sendByte v i t => cases t <;> simp [faultReports, ih]

/-- Fault reports of the health check: one report when the check fires and the
code read differs from the stored one, none otherwise. -/
theorem faultReports_healthCheck (b : Build Q) (s : Sensor Q F) (env : LoopEnv Q F) :
    faultReports (healthCheck b s env).2 =
      if isStale s env.millisCheck = true ∧ ((env.resetReason % 256 : Nat) : Int) ≠ s.lastReset
      then [(env.resetReason % 256, s.sensorId)] else [] := by
  unfold healthCheck
  dsimp only
  split_ifs <;> simp_all [faultReports, sendResetReason]

/-- Stored code after the health check. -/
theorem lastReset_healthCheck (b : Build Q) (s : Sensor Q F) (env : LoopEnv Q F) :
    (healthCheck b s env).1.lastReset =
      if isStale s env.millisCheck = true ∧ ((env.resetReason % 256 : Nat) : Int) ≠ s.lastReset
      then ((env.resetReason % 256 : Nat) : Int) else s.lastReset := by
  unfold healthCheck
  dsimp only
  split_ifs <;> first | rfl | exact conv_uint8 _ _ | simp_all

theorem sensorId_healthCheck (b : Build Q) (s : Sensor Q F) (env : LoopEnv Q F) :
    (healthCheck b s env).1.sensorId = s.sensorId := by
  unfold healthCheck
  dsimp only
  split_ifs <;> rfl

theorem configured_healthCheck (b : Build Q) (s : Sensor Q F) (env : LoopEnv Q F) :
    (healthCheck b s env).1.configured = s.configured := by
  unfold healthCheck
  dsimp only
  split_ifs <;> rfl

theorem working_healthCheck (b : Build Q) (s : Sensor Q F) (env : LoopEnv Q F) :
    (healthCheck b s env).1.working = (s.working && !isStale s env.millisCheck) := by
  unfold healthCheck
  dsimp only
  split_ifs <;> simp_all

theorem motionSetup_ok (b : Build Q) (s : Sensor Q F) (env : SetupEnv)
    (h : env.begin = true) :
    motionSetup b s env =
      ({ s with
          lastReset := ((env.resetReason % 256 : Nat) : Int)
          lastData := env.millis
          working := true
          configured := true },
       Effect.serial (SerialLine.connected s.sensorType s.addr) ::
         (enableStreams b s ++ [Effect.enableTapDetector 100])) := by
  simp only [motionSetup, h, Bool.not_true, Bool.false_eq_true, if_false, conv_uint8]

/-- Without wrap-around of the counter, the condition of line 143 is the
plain comparison. -/
theorem isStale_noWrap (s : Sensor Q F) (now : Nat) (h : s.lastData + 1000 < ULONG_MOD) :
    isStale s now = (decide (s.lastData + 1000 < now) && s.configured) := by
  simp only [isStale, Nat.mod_eq_of_lt h]

/-- Lemma for the run of no-data calls: the codes reported, read after the
stored code, never repeat from one to the next. -/
theorem chain_runLoops (b : Build Q) (envs : List (LoopEnv Q F)) :
    ∀ s : Sensor Q F, (∀ env ∈ envs, env.reports = []) →
      List.Chain (fun x y : Int => x ≠ y) s.lastReset
        ((faultReports (runLoops b s envs).2).map (fun p => (p.1 : Int))) := by
  induction envs with
  | nil => intro s _; exact List.Chain.nil
  | cons env envs ih =>
    intro s h
    have he : env.reports = [] := h env (List.mem_cons_self _ _)
    have ht : ∀ e ∈ envs, e.reports = [] := fun e m => h e (List.mem_cons_of_mem _ m)
    have hrec := ih (healthCheck b s env).1 ht
    simp only [runLoops, motionLoop_noData b s env he, faultReports_append, List.map_append,
      faultReports_healthCheck]
    rw [lastReset_healthCheck] at hrec
    split_ifs at hrec ⊢ with hc
    · simp only [List.map_cons, List.map_nil, List.singleton_append]
      exact List.Chain.cons (fun e => hc.2 e.symm) hrec
    · simpa using hrec

/-- Lemma for the run of no-data calls: while the code read equals the stored
code, nothing is reported. -/
theorem quiet_runLoops (b : Build Q) (c : Nat) (envs : List (LoopEnv Q F)) :
    ∀ s : Sensor Q F, (∀ env ∈ envs, env.reports = []) → s.lastReset = (c : Int) →
      (∀ env ∈ envs, env.resetReason % 256 = c) →
      faultReports (runLoops b s envs).2 = [] := by
  induction envs with
  | nil => intro s _ _ _; rfl
  | cons env envs ih =>
    intro s h hs hc
    have he : env.reports = [] := h env (List.mem_cons_self _ _)
    have hce : env.resetReason % 256 = c := hc env (List.mem_cons_self _ _)
    have hno : ¬ (isStale s env.millisCheck = true ∧
        ((env.resetReason % 256 : Nat) : Int) ≠ s.lastReset) := by
      rw [hce, hs]; simp
    have hl : (healthCheck b s env).1.lastReset = (c : Int) := by
      rw [lastReset_healthCheck, if_neg hno, hs]
    have hrec := ih (healthCheck b s env).1
      (fun e m => h e (List.mem_cons_of_mem _ m)) hl
      (fun e m => hc e (List.mem_cons_of_mem _ m))
    simp only [runLoops, motionLoop_noData b s env he, faultReports_append,
      faultReports_healthCheck, if_neg hno, hrec, List.append_nil]

theorem working_readOrientation (b : Build Q) (s : Sensor Q F) (r : Report Q F) :
    (readOrientation b s r).working = s.working := by
  unfold readOrientation
  dsimp only
  split_ifs <;> rfl

theorem working_loopBody (b : Build Q) (s : Sensor Q F) (r : Report Q F) :
    (loopBody b s r).1.working = s.working := by
  unfold loopBody
  dsimp only
  split_ifs <;> simp only [working_readOrientation]

theorem faultReports_loopBody (b : Build Q) (s : Sensor Q F) (r : Report Q F) :
    faultReports (loopBody b s r).2 = [] := by
  unfold loopBody
  dsimp only
  split_ifs <;> rfl

theorem working_readLoop (b : Build Q) (rs : List (Report Q F)) :
    ∀ s : Sensor Q F, (readLoop b s rs).1.working = s.working := by
  induction rs with
  | nil => intro s; rfl
  | cons r rs ih =>
    intro s
    simp only [readLoop]
    split_ifs
    · exact working_loopBody b s r
    · rw [ih, working_loopBody]

theorem faultReports_readLoop (b : Build Q) (rs : List (Report Q F)) :
    ∀ s : Sensor Q F, faultReports (readLoop b s rs).2 = [] := by
  induction rs with
  | nil => intro s; rfl
  | cons r rs ih =>
    intro s
    simp only [readLoop]
    split_ifs
    · exact faultReports_loopBody b s r
    · simp only [faultReports_append, faultReports_loopBody, ih, List.append_nil]

theorem working_motionLoop (b : Build Q) (s : Sensor Q F) (env : LoopEnv Q F) :
    (motionLoop b s env).1.working =
      (s.working && !isStale (readLoop b s env.reports).1 env.millisCheck) := by
  simp only [motionLoop, working_healthCheck, working_readLoop]

theorem faultReports_motionLoop (b : Build Q) (s : Sensor Q F) (env : LoopEnv Q F) :
    faultReports (motionLoop b s env).2 =
      faultReports (healthCheck b (readLoop b s env.reports).1 env).2 := by
  simp only [motionLoop, faultReports_append, faultReports_readLoop, List.nil_append]

theorem rotationsOf_append (d : DataType) (es fs : List (Effect Q F)) :
    rotationsOf d (es ++ fs) = rotationsOf d es ++ rotationsOf d fs := by
  induction es with
  | nil => rfl
  | cons e es ih =>
    cases e <;> simp [rotationsOf, ih]
    case sendRotationData q k a i t => split_ifs <;> simp

/-- The loop body under the absolute-heading policy with a fresh quaternion. -/
theorem loopBody_absolute (b : Build Q) (s : Sensor Q F) (r : Report Q F)
    (hpol : absoluteHeadingPolicy s = true) (hnew : r.hasNewQuat = true) :
    (loopBody b s r).1.quaternion = b.mul r.quat s.sensorOffset ∧
    (loopBody b s r).1.newData =
      (s.newData || !b.OPTIMIZE_UPDATES ||
        !b.equalsWithEpsilon s.lastQuatSent (b.mul r.quat s.sensorOffset)) ∧
    (loopBody b s r).1.lastQuatSent =
      (if (!b.OPTIMIZE_UPDATES ||
          !b.equalsWithEpsilon s.lastQuatSent (b.mul r.quat s.sensorOffset)) = true
       then b.mul r.quat s.sensorOffset else s.lastQuatSent) := by
  have hpol1 : absoluteHeadingPolicy
      ({ s with lastReset := b.lastResetType.conv (-1), lastData := r.millis } : Sensor Q F)
      = true := hpol
  unfold loopBody readOrientation
  simp only [hpol1, hnew, if_true]
  split_ifs <;> simp_all <;> tauto

/-- The loop body when the absolute-heading policy is not active. -/
theorem loopBody_relative (b : Build Q) (s : Sensor Q F) (r : Report Q F)
    (hpol : absoluteHeadingPolicy s = false) :
    (r.hasNewGameQuat = true →
      (loopBody b s r).1.quaternion = b.mul r.gameQuat s.sensorOffset ∧
      (loopBody b s r).1.newData = true) ∧
    (r.hasNewMagQuat = true →
      (loopBody b s r).1.magQuaternion = b.mul r.magQuat s.sensorOffset ∧
      (loopBody b s r).1.newMagData = true) ∧
    (loopBody b s r).1.lastQuatSent = s.lastQuatSent := by
  have hpol1 : absoluteHeadingPolicy
      ({ s with lastReset := b.lastResetType.conv (-1), lastData := r.millis } : Sensor Q F)
      = false := hpol
  unfold loopBody readOrientation
  simp only [hpol1, Bool.false_eq_true, if_false]
  refine ⟨?_, ?_, ?_⟩
  · intro h; split_ifs <;> simp_all
  · intro h; split_ifs <;> simp_all
  · split_ifs <;> rfl

theorem sensorOffset_loopBody (b : Build Q) (s : Sensor Q F) (r : Report Q F) :
    (loopBody b s r).1.sensorOffset = s.sensorOffset := by
  unfold loopBody readOrientation
  dsimp only
  split_ifs <;> rfl

theorem rotationsOf_loopBody (d : DataType) (b : Build Q) (s : Sensor Q F) (r : Report Q F) :
    rotationsOf d (loopBody b s r).2 = [] := by
  unfold loopBody
  dsimp only
  split_ifs <;> rfl

/-- After one pass, the primary quaternion is the old one or an offered raw
quaternion times the mounting offset; likewise the correction quaternion. -/
theorem quaternions_loopBody (b : Build Q) (s : Sensor Q F) (r : Report Q F) :
    ((loopBody b s r).1.quaternion = s.quaternion ∨
      ∃ x ∈ r.raws, (loopBody b s r).1.quaternion = b.mul x s.sensorOffset) ∧
    ((loopBody b s r).1.magQuaternion = s.magQuaternion ∨
      ∃ x ∈ r.raws, (loopBody b s r).1.magQuaternion = b.mul x s.sensorOffset) := by
  unfold loopBody readOrientation Report.raws
  dsimp only
  split_ifs <;> simp

theorem sensorOffset_readLoop (b : Build Q) (rs : List (Report Q F)) :
    ∀ s : Sensor Q F, (readLoop b s rs).1.sensorOffset = s.sensorOffset := by
  induction rs with
  | nil => intro s; rfl
  | cons r rs ih =>
    intro s
    simp only [readLoop]
    split_ifs
    · exact sensorOffset_loopBody b s r
    · rw [ih, sensorOffset_loopBody]

theorem rotationsOf_readLoop (d : DataType) (b : Build Q) (rs : List (Report Q F)) :
    ∀ s : Sensor Q F, rotationsOf d (readLoop b s rs).2 = [] := by
  induction rs with
  | nil => intro s; rfl
  | cons r rs ih =>
    intro s
    simp only [readLoop]
    split_ifs
    · exact rotationsOf_loopBody d b s r
    · simp only [rotationsOf_append, rotationsOf_loopBody, ih, List.append_nil]

theorem quaternions_readLoop (b : Build Q) (rs : List (Report Q F)) :
    ∀ s : Sensor Q F,
      ((readLoop b s rs).1.quaternion = s.quaternion ∨
        ∃ x ∈ rs.flatMap Report.raws,
          (readLoop b s rs).1.quaternion = b.mul x s.sensorOffset) ∧
      ((readLoop b s rs).1.magQuaternion = s.magQuaternion ∨
        ∃ x ∈ rs.flatMap Report.raws,
          (readLoop b s rs).1.magQuaternion = b.mul x s.sensorOffset) := by
  induction rs with
  | nil => intro s; exact ⟨Or.inl rfl, Or.inl rfl⟩
  | cons r rs ih =>
    intro s
    have hb := quaternions_loopBody b s r
    have hr := ih (loopBody b s r).1
    rw [sensorOffset_loopBody] at hr
    simp only [readLoop, List.flatMap_cons, List.mem_append]
    split_ifs
    · refine ⟨hb.1.imp id ?_, hb.2.imp id ?_⟩ <;>
        exact fun ⟨x, hx, e⟩ => ⟨x, Or.inl hx, e⟩
    · constructor
      · rcases hr.1 with e | ⟨x, hx, e⟩
        · rcases hb.1 with e2 | ⟨y, hy, e2⟩
          · exact Or.inl (e.trans e2)
          · exact Or.inr ⟨y, Or.inl hy, e.trans e2⟩
        · exact Or.inr ⟨x, Or.inr hx, e⟩
      · rcases hr.2 with e | ⟨x, hx, e⟩
        · rcases hb.2 with e2 | ⟨y, hy, e2⟩
          · exact Or.inl (e.trans e2)
          · exact Or.inr ⟨y, Or.inl hy, e.trans e2⟩
        · exact Or.inr ⟨x, Or.inr hx, e⟩

/-- The health check touches neither the quaternions nor the offset and
sends no rotation packet. -/
theorem healthCheck_frame (d : DataType) (b : Build Q) (s : Sensor Q F) (env : LoopEnv Q F) :
    (healthCheck b s env).1.quaternion = s.quaternion ∧
    (healthCheck b s env).1.magQuaternion = s.magQuaternion ∧
    (healthCheck b s env).1.sensorOffset = s.sensorOffset ∧
    rotationsOf d (healthCheck b s env).2 = [] := by
  unfold healthCheck
  dsimp only
  split_ifs <;> exact ⟨rfl, rfl, rfl, rfl⟩

/-- Rotation packets of sendData: the primary quaternion if the primary sample
is dirty, the correction quaternion if the correction sample is dirty. -/
theorem rotationsOf_sendData (s : Sensor Q F) :
    rotationsOf DataType.DATA_TYPE_NORMAL (sendData s).2 =
      (if s.newData = true then [s.quaternion] else []) ∧
    rotationsOf DataType.DATA_TYPE_CORRECTION (sendData s).2 =
      (if s.newMagData = true then [s.magQuaternion] else []) := by
  unfold sendData sendPrimary sendCorrection sendTap
  dsimp only
  constructor <;> split_ifs <;> simp_all [rotationsOf]

/-- Fields that sendData leaves alone. -/
theorem sendData_frame (s : Sensor Q F) :
    (sendData s).1.quaternion = s.quaternion ∧
    (sendData s).1.magQuaternion = s.magQuaternion ∧
    (sendData s).1.sensorOffset = s.sensorOffset ∧
    (sendData s).1.lastQuatSent = s.lastQuatSent := by
  unfold sendData sendPrimary sendCorrection sendTap
  dsimp only
  split_ifs <;> exact ⟨rfl, rfl, rfl, rfl⟩

/-- One scheduler call: rotation packets carry the quaternions held before the
call; the quaternions held after it are the old ones or offered raw
quaternions times the offset; the offset is kept. -/
theorem step_quaternions (b : Build Q) (s : Sensor Q F) (c : Call Q F) :
    (∀ d q, q ∈ rotationsOf d (step b s c).2 → q = s.quaternion ∨ q = s.magQuaternion) ∧
    ((step b s c).1.quaternion = s.quaternion ∨
      ∃ x ∈ c.raws, (step b s c).1.quaternion = b.mul x s.sensorOffset) ∧
    ((step b s c).1.magQuaternion = s.magQuaternion ∨
      ∃ x ∈ c.raws, (step b s c).1.magQuaternion = b.mul x s.sensorOffset) ∧
    (step b s c).1.sensorOffset = s.sensorOffset := by
  cases c with
  | poll env =>
    have hq := quaternions_readLoop b env.reports s
    have hf := fun d => healthCheck_frame d b (readLoop b s env.reports).1 env
    refine ⟨?_, ?_, ?_, ?_⟩
    · intro d q hmem
      simp only [step, motionLoop, rotationsOf_append, rotationsOf_readLoop, (hf d).2.2.2,
        List.append_nil, List.not_mem_nil] at hmem
    · simp only [step, motionLoop, Call.raws, (hf DataType.DATA_TYPE_NORMAL).1]
      exact hq.1
    · simp only [step, motionLoop, Call.raws, (hf DataType.DATA_TYPE_NORMAL).2.1]
      exact hq.2
    · simp only [step, motionLoop, (hf DataType.DATA_TYPE_NORMAL).2.2.1, sensorOffset_readLoop]
  | flush =>
    have hr := rotationsOf_sendData s
    have hf := sendData_frame s
    refine ⟨?_, Or.inl hf.1, Or.inl hf.2.1, hf.2.2.1⟩
    intro d q hmem
    cases d
    · simp only [step, hr.1] at hmem
      split_ifs at hmem <;> simp_all
    · simp only [step, hr.2] at hmem
      split_ifs at hmem <;> simp_all

/-- Every rotation packet of a run carries a quaternion held at the start or
an offered raw quaternion times the mounting offset. -/
theorem run_quaternions (b : Build Q) (cs : List (Call Q F)) :
    ∀ (s : Sensor Q F) (d : DataType) (q : Q), q ∈ rotationsOf d (run b s cs).2 →
      q = s.quaternion ∨ q = s.magQuaternion ∨
        ∃ x ∈ cs.flatMap Call.raws, q = b.mul x s.sensorOffset := by
  induction cs with
  | nil => intro s d q h; simp [run, rotationsOf] at h
  | cons c cs ih =>
    intro s d q h
    have hs := step_quaternions b s c
    simp only [run, rotationsOf_append, List.mem_append] at h
    simp only [List.flatMap_cons, List.mem_append]
    rcases h with h | h
    · rcases hs.1 d q h with e | e
      · exact Or.inl e
      · exact Or.inr (Or.inl e)
    · have ht := ih (step b s c).1 d q h
      rw [hs.2.2.2] at ht
      rcases ht with e | e | ⟨x, hx, e⟩
      · rcases hs.2.1 with e2 | ⟨y, hy, e2⟩
        · exact Or.inl (e.trans e2)
        · exact Or.inr (Or.inr ⟨y, Or.inl hy, e.trans e2⟩)
      · rcases hs.2.2.1 with e2 | ⟨y, hy, e2⟩
        · exact Or.inr (Or.inl (e.trans e2))
        · exact Or.inr (Or.inr ⟨y, Or.inl hy, e.trans e2⟩)
      · exact Or.inr (Or.inr ⟨x, Or.inr hx, e⟩)

theorem policy_loopBody (b : Build Q) (s : Sensor Q F) (r : Report Q F) :
    absoluteHeadingPolicy (loopBody b s r).1 = absoluteHeadingPolicy s := by
  unfold loopBody readOrientation absoluteHeadingPolicy
  dsimp only
  split_ifs <;> rfl

theorem policy_sendData (s : Sensor Q F) :
    absoluteHeadingPolicy (sendData s).1 = absoluteHeadingPolicy s := by
  unfold sendData sendPrimary sendCorrection sendTap absoluteHeadingPolicy
  dsimp only
  split_ifs <;> rfl

theorem newData_sendData (s : Sensor Q F) : (sendData s).1.newData = false := by
  unfold sendData sendPrimary sendCorrection sendTap
  dsimp only
  split_ifs <;> simp_all

/-- The failure branch of motionSetup. -/
theorem motionSetup_fail (b : Build Q) (s : Sensor Q F) (env : SetupEnv)
    (h : env.begin = false) :
    motionSetup b s env =
      (s, [Effect.serial (SerialLine.cantConnect s.sensorType),
           Effect.ledPattern Led.LOADING_LED 50 50 200]) := by
  simp only [motionSetup, h, Bool.not_false, if_true, signalAssert]

/-- A property of the state kept by every pass of the loop body is kept by
the read loop. -/
theorem readLoop_keeps (b : Build Q) (P : Sensor Q F → Prop)
    (hP : ∀ (t : Sensor Q F) (r : Report Q F), P t → P (loopBody b t r).1)
    (rs : List (Report Q F)) :
    ∀ s : Sensor Q F, P s → P (readLoop b s rs).1 := by
  induction rs with
  | nil => intro s h; exact h
  | cons r rs ih =>
    intro s h
    simp only [readLoop]
    split_ifs
    · exact hP s r h
    · exact ih _ (hP s r h)

/-- Under the absolute-heading policy a pass of the loop body touches neither
newMagData nor magQuaternion, and never clears newData. -/
theorem loopBody_absolute_frame (b : Build Q) (s : Sensor Q F) (r : Report Q F)
    (hpol : absoluteHeadingPolicy s = true) :
    (loopBody b s r).1.newMagData = s.newMagData ∧
    (loopBody b s r).1.magQuaternion = s.magQuaternion ∧
    (s.newData = true → (loopBody b s r).1.newData = true) := by
  have hpol1 : absoluteHeadingPolicy
      ({ s with lastReset := b.lastResetType.conv (-1), lastData := r.millis } : Sensor Q F)
      = true := hpol
  unfold loopBody readOrientation
  simp only [hpol1, if_true]
  split_ifs <;> simp_all

/-- The health check leaves the sample fields and the policy alone. -/
theorem healthCheck_samples (b : Build Q) (s : Sensor Q F) (env : LoopEnv Q F) :
    (healthCheck b s env).1.newData = s.newData ∧
    (healthCheck b s env).1.newMagData = s.newMagData ∧
    (healthCheck b s env).1.lastQuatSent = s.lastQuatSent ∧
    (healthCheck b s env).1.tap = s.tap ∧
    absoluteHeadingPolicy (healthCheck b s env).1 = absoluteHeadingPolicy s := by
  unfold healthCheck absoluteHeadingPolicy
  dsimp only
  split_ifs <;> exact ⟨rfl, rfl, rfl, rfl, rfl⟩

/-- Under the absolute-heading policy motionLoop keeps the policy, newMagData
and magQuaternion, and never clears newData. -/
theorem motionLoop_absolute_frame (b : Build Q) (s : Sensor Q F) (env : LoopEnv Q F)
    (hpol : absoluteHeadingPolicy s = true) :
    absoluteHeadingPolicy (motionLoop b s env).1 = true ∧
    (motionLoop b s env).1.newMagData = s.newMagData ∧
    (motionLoop b s env).1.magQuaternion = s.magQuaternion ∧
    (s.newData = true → (motionLoop b s env).1.newData = true) := by
  have hk := readLoop_keeps b
    (fun t => absoluteHeadingPolicy t = true ∧ t.newMagData = s.newMagData ∧
      t.magQuaternion = s.magQuaternion ∧ (s.newData = true → t.newData = true))
    (fun t r h => by
      have hf := loopBody_absolute_frame b t r h.1
      exact ⟨by rw [policy_loopBody]; exact h.1, hf.1.trans h.2.1, hf.2.1.trans h.2.2.1,
        fun hn => hf.2.2 (h.2.2.2 hn)⟩)
    env.reports s ⟨hpol, rfl, rfl, id⟩
  have hh := healthCheck_samples b (readLoop b s env.reports).1 env
  have hf := healthCheck_frame DataType.DATA_TYPE_NORMAL b (readLoop b s env.reports).1 env
  refine ⟨?_, ?_, ?_, ?_⟩
  · show absoluteHeadingPolicy (healthCheck b (readLoop b s env.reports).1 env).1 = true
    rw [hh.2.2.2.2]; exact hk.1
  · show (healthCheck b (readLoop b s env.reports).1 env).1.newMagData = s.newMagData
    rw [hh.2.1]; exact hk.2.1
  · show (healthCheck b (readLoop b s env.reports).1 env).1.magQuaternion = s.magQuaternion
    rw [hf.2.1]; exact hk.2.2.1
  · intro hn
    show (healthCheck b (readLoop b s env.reports).1 env).1.newData = true
    rw [hh.1]; exact hk.2.2.2 hn

/-- Fields of the session a pass of the loop body sets from the report or
leaves alone. -/
theorem loopBody_fields (b : Build Q) (s : Sensor Q F) (r : Report Q F) :
    (loopBody b s r).1.intPin = s.intPin ∧
    (loopBody b s r).1.tap = (if r.getTapDetected = true then r.getTapDetector % 256 else s.tap) ∧
    (loopBody b s r).1.lastReset = b.lastResetType.conv (-1) ∧
    (loopBody b s r).1.lastData = r.millis ∧
    (loopBody b s r).1.configured = s.configured ∧
    (loopBody b s r).1.sensorId = s.sensorId := by
  unfold loopBody readOrientation
  dsimp only
  split_ifs <;> exact ⟨rfl, rfl, rfl, rfl, rfl, rfl⟩

/-- The read loop is the succession of passes over the consumed reports. -/
theorem readLoop_consumed (b : Build Q) (rs : List (Report Q F)) :
    ∀ s : Sensor Q F,
      (readLoop b s rs).1 = passes b s (consumed s.intPin rs) ∧
      readLoop b s rs = readLoop b s (consumed s.intPin rs) := by
  induction rs with
  | nil => intro s; exact ⟨rfl, rfl⟩
  | cons r rs ih =>
    intro s
    have hpin := (loopBody_fields b s r).1
    have hl : leavesLoop (loopBody b s r).1 r = (s.intPin == 255 || r.I2CTimedOut) := by
      unfold leavesLoop; rw [hpin]
    cases h : (s.intPin == 255 || r.I2CTimedOut)
    · have hr := ih (loopBody b s r).1
      rw [hpin] at hr
      have hc : consumed s.intPin (r :: rs) = r :: consumed s.intPin rs := by
        rw [consumed, h]; rfl
      rw [hc]
      constructor
      · rw [readLoop, passes]
        simp only [hl, h, Bool.false_eq_true, if_false]
        exact hr.1
      · rw [readLoop, readLoop]
        simp only [hl, h, Bool.false_eq_true, if_false]
        rw [← hr.2]
    · have hc : consumed s.intPin (r :: rs) = [r] := by
        rw [consumed, h]; rfl
      rw [hc]
      constructor
      · rw [readLoop, passes, passes]
        simp only [hl, h, if_true]
      · rw [readLoop, readLoop]
        simp only [hl, h, if_true]

theorem consumed_polled (rs : List (Report Q F)) :
    (consumed 255 rs).length ≤ 1 ∧ consumed 255 rs = rs.take 1 := by
  cases rs with
  | nil => exact ⟨Nat.zero_le _, rfl⟩
  | cons r rs => simp [consumed]

theorem consumed_timeout (pin : Nat) (r : Report Q F) (post : List (Report Q F))
    (hr : r.I2CTimedOut = true) (pre : List (Report Q F)) :
    consumed pin (pre ++ r :: post) = consumed pin (pre ++ [r]) ∧
    (pin ≠ 255 → (∀ p ∈ pre, p.I2CTimedOut = false) →
      consumed pin (pre ++ r :: post) = pre ++ [r]) := by
  induction pre with
  | nil => simp [consumed, hr]
  | cons p pre ih =>
    simp only [List.cons_append]
    constructor
    · rw [consumed, consumed]
      split_ifs
      · rfl
      · rw [ih.1]
    · intro hpin hpre
      have hp : p.I2CTimedOut = false := hpre p (List.mem_cons_self _ _)
      have hrest := ih.2 hpin (fun q hq => hpre q (List.mem_cons_of_mem _ hq))
      have hb : (pin == 255 || p.I2CTimedOut) = false := by
        rw [hp, Bool.or_false]
        exact beq_false_of_ne hpin
      rw [consumed, hb, hrest]
      rfl

theorem tap_passes (b : Build Q) (rs : List (Report Q F)) :
    ∀ s : Sensor Q F, (passes b s rs).tap = lastTap s.tap rs := by
  induction rs with
  | nil => intro s; rfl
  | cons r rs ih =>
    intro s
    simp only [passes, lastTap, ih, (loopBody_fields b s r).2.1]

theorem lastTap_append (rs ts : List (Report Q F)) :
    ∀ t : Nat, lastTap t (rs ++ ts) = lastTap (lastTap t rs) ts := by
  induction rs with
  | nil => intro t; rfl
  | cons r rs ih =>
    intro t
    rw [List.cons_append, lastTap, lastTap, ih]

theorem intPin_motionLoop (b : Build Q) (s : Sensor Q F) (env : LoopEnv Q F) :
    (motionLoop b s env).1.intPin = s.intPin := by
  have hk := readLoop_keeps b (fun t => t.intPin = s.intPin)
    (fun t r h => (loopBody_fields b t r).1.trans h) env.reports s rfl
  show (healthCheck b (readLoop b s env.reports).1 env).1.intPin = s.intPin
  rw [← hk]
  unfold healthCheck
  dsimp only
  split_ifs <;> rfl

theorem tap_motionLoop (b : Build Q) (s : Sensor Q F) (env : LoopEnv Q F) :
    (motionLoop b s env).1.tap = lastTap s.tap (consumed s.intPin env.reports) := by
  show (healthCheck b (readLoop b s env.reports).1 env).1.tap = _
  rw [(healthCheck_samples b _ env).2.2.2.1, (readLoop_consumed b env.reports s).1, tap_passes]

theorem tap_runLoops (b : Build Q) (envs : List (LoopEnv Q F)) :
    ∀ s : Sensor Q F, (runLoops b s envs).1.tap =
      lastTap s.tap (envs.flatMap (fun env => consumed s.intPin env.reports)) := by
  induction envs with
  | nil => intro s; rfl
  | cons env envs ih =>
    intro s
    simp only [runLoops, ih, List.flatMap_cons, lastTap_append, tap_motionLoop,
      intPin_motionLoop]

theorem tapReports_sendData (s : Sensor Q F) :
    tapReports (sendData s).2 = (if s.tap ≠ 0 then [(s.tap, s.sensorId)] else []) ∧
    (sendData s).1.tap = 0 := by
  unfold sendData sendPrimary sendCorrection sendTap
  dsimp only
  split_ifs <;> simp_all [tapReports]

theorem healthCheck_fresh (b : Build Q) (s : Sensor Q F) (env : LoopEnv Q F)
    (h : isStale s env.millisCheck = false) : healthCheck b s env = (s, []) := by
  simp only [healthCheck, h, Bool.false_eq_true, if_false]

theorem lastReset_readLoop (b : Build Q) (s : Sensor Q F) (r : Report Q F)
    (rs : List (Report Q F)) :
    (readLoop b s (r :: rs)).1.lastReset = b.lastResetType.conv (-1) := by
  have h1 := (loopBody_fields b s r).2.2.1
  simp only [readLoop]
  split_ifs
  · exact h1
  · exact readLoop_keeps b (fun t => t.lastReset = b.lastResetType.conv (-1))
      (fun t x _ => (loopBody_fields b t x).2.2.1) rs _ h1

/-- With lastReset declared uint8_t, the assignment of -1 on data arrival
stores 255, and the state query answers SENSOR_ERROR after any motionLoop
that saw data and did not go stale. -/
theorem dataArrival_uint8 (b : Build Q) (s : Sensor Q F) (env : LoopEnv Q F)
    (r : Report Q F) (rs : List (Report Q F))
    (hty : b.lastResetType = LastResetType.uint8) (hdata : env.reports = r :: rs)
    (hfresh : isStale (readLoop b s env.reports).1 env.millisCheck = false) :
    (motionLoop b s env).1.lastReset = 255 ∧
    getSensorState (motionLoop b s env).1 = SensorStatus.SENSOR_ERROR := by
  have hl : (motionLoop b s env).1.lastReset = 255 := by
    show (healthCheck b (readLoop b s env.reports).1 env).1.lastReset = 255
    rw [healthCheck_fresh b _ env hfresh, hdata, lastReset_readLoop, hty]
    rfl
  refine ⟨hl, ?_⟩
  unfold getSensorState
  rw [hl]
  rfl

theorem sendData_idle (s : Sensor Q F) (hn : s.newData = false) (hm : s.newMagData = false)
    (ht : s.tap = 0) : sendData s = (s, []) := by
  simp [sendData, sendPrimary, sendCorrection, sendTap, hn, hm, ht]

theorem sendData_clears (s : Sensor Q F) :
    (sendData s).1.newData = false ∧ (sendData s).1.newMagData = false ∧
    (sendData s).1.tap = 0 := by
  unfold sendData sendPrimary sendCorrection sendTap
  dsimp only
  split_ifs <;> simp_all

theorem sendData_health (s : Sensor Q F) :
    (sendData s).1.working = s.working ∧ (sendData s).1.configured = s.configured ∧
    (sendData s).1.lastReset = s.lastReset ∧ (sendData s).1.lastData = s.lastData := by
  unfold sendData sendPrimary sendCorrection sendTap
  dsimp only
  split_ifs <;> exact ⟨rfl, rfl, rfl, rfl⟩

theorem rotationsOf_motionLoop (d : DataType) (b : Build Q) (s : Sensor Q F)
    (env : LoopEnv Q F) : rotationsOf d (motionLoop b s env).2 = [] := by
  simp only [motionLoop, rotationsOf_append, rotationsOf_readLoop,
    (healthCheck_frame d b _ env).2.2.2, List.append_nil]

/-- Under the absolute-heading policy, with no correction sample pending, a
run emits no correction packet. -/
theorem run_no_correction (b : Build Q) (cs : List (Call Q F)) :
    ∀ s : Sensor Q F, absoluteHeadingPolicy s = true → s.newMagData = false →
      rotationsOf DataType.DATA_TYPE_CORRECTION (run b s cs).2 = [] := by
  induction cs with
  | nil => intro s _ _; rfl
  | cons c cs ih =>
    intro s hpol hmag
    cases c with
    | poll env =>
      have hf := motionLoop_absolute_frame b s env hpol
      have hrec := ih (motionLoop b s env).1 hf.1 (hf.2.1.trans hmag)
      simp only [run, step, rotationsOf_append, rotationsOf_motionLoop, List.nil_append]
      exact hrec
    | flush =>
      have hrec := ih (sendData s).1 (by rw [policy_sendData]; exact hpol)
        (sendData_clears s).2.1
      simp only [run, step, rotationsOf_append, (rotationsOf_sendData s).2, hmag,
        Bool.false_eq_true, if_false, List.nil_append]
      exact hrec

/-- When the absolute-heading policy is not active, motionLoop leaves
lastQuatSent alone. -/
theorem lastQuatSent_motionLoop (b : Build Q) (s : Sensor Q F) (env : LoopEnv Q F)
    (hpol : absoluteHeadingPolicy s = false) :
    (motionLoop b s env).1.lastQuatSent = s.lastQuatSent := by
  have hk := readLoop_keeps b
    (fun t => absoluteHeadingPolicy t = false ∧ t.lastQuatSent = s.lastQuatSent)
    (fun t r h => ⟨by rw [policy_loopBody]; exact h.1,
      (loopBody_relative b t r h.1).2.2.trans h.2⟩) env.reports s ⟨hpol, rfl⟩
  show (healthCheck b (readLoop b s env.reports).1 env).1.lastQuatSent = s.lastQuatSent
  rw [(healthCheck_samples b _ env).2.2.1]
  exact hk.2

theorem sensorId_runLoops (b : Build Q) (envs : List (LoopEnv Q F)) :
    ∀ s : Sensor Q F, (runLoops b s envs).1.sensorId = s.sensorId := by
  induction envs with
  | nil => intro s; rfl
  | cons env envs ih =>
    intro s
    have hk := readLoop_keeps b (fun t => t.sensorId = s.sensorId)
      (fun t r h => (loopBody_fields b t r).2.2.2.2.2.trans h) env.reports s rfl
    simp only [runLoops, ih]
    show (healthCheck b (readLoop b s env.reports).1 env).1.sensorId = s.sensorId
    rw [sensorId_healthCheck]
    exact hk

/-- One pass of the loop body against the specification of the consumed
samples: every sample field after the pass, for either policy. -/
theorem loopBody_samples (b : Build Q) (s : Sensor Q F) (r : Report Q F) :
    (loopBody b s r).1.quaternion =
      offsetLast b s.sensorOffset s.quaternion
        (primaryRaw (absoluteHeadingPolicy s) r).toList ∧
    (loopBody b s r).1.magQuaternion =
      offsetLast b s.sensorOffset s.magQuaternion
        (correctionRaw (absoluteHeadingPolicy s) r).toList ∧
    (loopBody b s r).1.lastQuatSent =
      (if absoluteHeadingPolicy s = true then
        dedupLast b s.sensorOffset s.lastQuatSent
          (primaryRaw (absoluteHeadingPolicy s) r).toList
       else s.lastQuatSent) ∧
    (loopBody b s r).1.newData =
      (s.newData ||
        (if absoluteHeadingPolicy s = true then
          dedupDirty b s.sensorOffset s.lastQuatSent
            (primaryRaw (absoluteHeadingPolicy s) r).toList
         else (primaryRaw (absoluteHeadingPolicy s) r).isSome)) ∧
    (loopBody b s r).1.newMagData =
      (s.newMagData || (correctionRaw (absoluteHeadingPolicy s) r).isSome) := by
  cases hpol : absoluteHeadingPolicy s
  · have hpol1 : absoluteHeadingPolicy
        ({ s with lastReset := b.lastResetType.conv (-1), lastData := r.millis } : Sensor Q F)
        = false := hpol
    unfold loopBody readOrientation primaryRaw correctionRaw
    simp only [hpol1, Bool.false_eq_true, if_false]
    cases r.hasNewGameQuat <;> cases r.hasNewMagQuat <;> cases r.getTapDetected <;>
      simp [offsetLast]
  · have hpol1 : absoluteHeadingPolicy
        ({ s with lastReset := b.lastResetType.conv (-1), lastData := r.millis } : Sensor Q F)
        = true := hpol
    unfold loopBody readOrientation primaryRaw correctionRaw
    simp only [hpol1, if_true]
    cases h1 : r.hasNewQuat <;> cases h2 : r.getTapDetected <;>
      cases h3 : b.OPTIMIZE_UPDATES <;>
      cases h4 : b.equalsWithEpsilon s.lastQuatSent (b.mul r.quat s.sensorOffset) <;>
      simp [offsetLast, dedupLast, dedupDirty, h3, h4]

theorem policy_passes (b : Build Q) (rs : List (Report Q F)) :
    ∀ s : Sensor Q F,
      absoluteHeadingPolicy (passes b s rs) = absoluteHeadingPolicy s ∧
      (passes b s rs).sensorOffset = s.sensorOffset := by
  induction rs with
  | nil => intro s; exact ⟨rfl, rfl⟩
  | cons r rs ih =>
    intro s
    have h := ih (loopBody b s r).1
    rw [policy_loopBody, sensorOffset_loopBody] at h
    exact h

theorem passes_samples_aux (b : Build Q) (pol : Bool) (off : Q) (rs : List (Report Q F)) :
    ∀ s : Sensor Q F, absoluteHeadingPolicy s = pol → s.sensorOffset = off →
      (passes b s rs).quaternion =
        offsetLast b off s.quaternion (rs.filterMap (primaryRaw pol)) ∧
      (passes b s rs).magQuaternion =
        offsetLast b off s.magQuaternion (rs.filterMap (correctionRaw pol)) ∧
      (passes b s rs).lastQuatSent =
        (if pol = true then dedupLast b off s.lastQuatSent (rs.filterMap (primaryRaw pol))
         else s.lastQuatSent) ∧
      (passes b s rs).newData =
        (s.newData ||
          (if pol = true then dedupDirty b off s.lastQuatSent (rs.filterMap (primaryRaw pol))
           else !(rs.filterMap (primaryRaw pol)).isEmpty)) ∧
      (passes b s rs).newMagData =
        (s.newMagData || !(rs.filterMap (correctionRaw pol)).isEmpty) := by
  induction rs with
  | nil =>
    intro s _ _
    simp [passes, offsetLast, dedupLast, dedupDirty]
  | cons r rs ih =>
    intro s hpol hoff
    have h1 := loopBody_samples b s r
    rw [hpol, hoff] at h1
    obtain ⟨q1, m1, l1, n1, g1⟩ := h1
    obtain ⟨q2, m2, l2, n2, g2⟩ := ih (loopBody b s r).1
      (by rw [policy_loopBody]; exact hpol) (by rw [sensorOffset_loopBody]; exact hoff)
    simp only [passes, List.filterMap_cons]
    rw [q2, m2, l2, n2, g2, q1, m1, l1, n1, g1]
    cases pol
    · cases hp : primaryRaw false r <;> cases hc : correctionRaw false r <;>
        simp [offsetLast]
    · have hc : correctionRaw true r = none := rfl
      cases hp : primaryRaw true r
      · simp [hc, offsetLast, dedupLast, dedupDirty]
      · simp only [hc, Option.toList_some, Option.toList_none, offsetLast, dedupLast,
          dedupDirty, if_true]
        split_ifs <;> simp

/-- Successive passes of the loop body against the specification of the
consumed samples. -/
theorem passes_samples (b : Build Q) (rs : List (Report Q F)) (s : Sensor Q F) :
    (passes b s rs).quaternion =
      offsetLast b s.sensorOffset s.quaternion
        (rs.filterMap (primaryRaw (absoluteHeadingPolicy s))) ∧
    (passes b s rs).magQuaternion =
      offsetLast b s.sensorOffset s.magQuaternion
        (rs.filterMap (correctionRaw (absoluteHeadingPolicy s))) ∧
    (passes b s rs).lastQuatSent =
      (if absoluteHeadingPolicy s = true then
        dedupLast b s.sensorOffset s.lastQuatSent
          (rs.filterMap (primaryRaw (absoluteHeadingPolicy s)))
       else s.lastQuatSent) ∧
    (passes b s rs).newData =
      (s.newData ||
        (if absoluteHeadingPolicy s = true then
          dedupDirty b s.sensorOffset s.lastQuatSent
            (rs.filterMap (primaryRaw (absoluteHeadingPolicy s)))
         else !(rs.filterMap (primaryRaw (absoluteHeadingPolicy s))).isEmpty)) ∧
    (passes b s rs).newMagData =
      (s.newMagData ||
        !(rs.filterMap (correctionRaw (absoluteHeadingPolicy s))).isEmpty) :=
  passes_samples_aux b (absoluteHeadingPolicy s) s.sensorOffset rs s rfl rfl

theorem offsetLast_append (b : Build Q) (off : Q) (l1 l2 : List Q) :
    ∀ q0 : Q, offsetLast b off q0 (l1 ++ l2) = offsetLast b off (offsetLast b off q0 l1) l2 := by
  induction l1 with
  | nil => intro q0; rfl
  | cons x l1 ih =>
    intro q0
    simp only [List.cons_append, offsetLast]
    exact ih _

theorem dedupLast_append (b : Build Q) (off : Q) (l1 l2 : List Q) :
    ∀ lq : Q, dedupLast b off lq (l1 ++ l2) = dedupLast b off (dedupLast b off lq l1) l2 := by
  induction l1 with
  | nil => intro lq; rfl
  | cons x l1 ih =>
    intro lq
    simp only [List.cons_append, dedupLast]
    split_ifs
    · exact ih _
    · exact ih _

/-- One motionLoop call against the specification of the consumed samples. -/
theorem motionLoop_samples (b : Build Q) (s : Sensor Q F) (env : LoopEnv Q F) :
    (motionLoop b s env).1.quaternion =
      offsetLast b s.sensorOffset s.quaternion
        ((consumed s.intPin env.reports).filterMap (primaryRaw (absoluteHeadingPolicy s))) ∧
    (motionLoop b s env).1.magQuaternion =
      offsetLast b s.sensorOffset s.magQuaternion
        ((consumed s.intPin env.reports).filterMap
          (correctionRaw (absoluteHeadingPolicy s))) ∧
    (motionLoop b s env).1.lastQuatSent =
      (if absoluteHeadingPolicy s = true then
        dedupLast b s.sensorOffset s.lastQuatSent
          ((consumed s.intPin env.reports).filterMap
            (primaryRaw (absoluteHeadingPolicy s)))
       else s.lastQuatSent) ∧
    (motionLoop b s env).1.newData =
      (s.newData ||
        (if absoluteHeadingPolicy s = true then
          dedupDirty b s.sensorOffset s.lastQuatSent
            ((consumed s.intPin env.reports).filterMap
              (primaryRaw (absoluteHeadingPolicy s)))
         else !((consumed s.intPin env.reports).filterMap
              (primaryRaw (absoluteHeadingPolicy s))).isEmpty)) ∧
    (motionLoop b s env).1.newMagData =
      (s.newMagData ||
        !((consumed s.intPin env.reports).filterMap
            (correctionRaw (absoluteHeadingPolicy s))).isEmpty) := by
  have hp := passes_samples b (consumed s.intPin env.reports) s
  rw [← (readLoop_consumed b env.reports s).1] at hp
  have hf := healthCheck_frame DataType.DATA_TYPE_NORMAL b (readLoop b s env.reports).1 env
  have hh := healthCheck_samples b (readLoop b s env.reports).1 env
  refine ⟨?_, ?_, ?_, ?_, ?_⟩
  · show (healthCheck b (readLoop b s env.reports).1 env).1.quaternion = _
    rw [hf.1]; exact hp.1
  · show (healthCheck b (readLoop b s env.reports).1 env).1.magQuaternion = _
    rw [hf.2.1]; exact hp.2.1
  · show (healthCheck b (readLoop b s env.reports).1 env).1.lastQuatSent = _
    rw [hh.2.2.1]; exact hp.2.2.1
  · show (healthCheck b (readLoop b s env.reports).1 env).1.newData = _
    rw [hh.1]; exact hp.2.2.2.1
  · show (healthCheck b (readLoop b s env.reports).1 env).1.newMagData = _
    rw [hh.2.1]; exact hp.2.2.2.2

theorem intPin_sendData (s : Sensor Q F) : (sendData s).1.intPin = s.intPin := by
  unfold sendData sendPrimary sendCorrection sendTap
  dsimp only
  split_ifs <;> rfl

/-- Interrupt line, mounting offset and policy are the same after a scheduler
call. -/
theorem step_constants (b : Build Q) (s : Sensor Q F) (c : Call Q F) :
    (step b s c).1.intPin = s.intPin ∧
    (step b s c).1.sensorOffset = s.sensorOffset ∧
    absoluteHeadingPolicy (step b s c).1 = absoluteHeadingPolicy s := by
  refine ⟨?_, (step_quaternions b s c).2.2.2, ?_⟩
  · cases c with
    | poll env => exact intPin_motionLoop b s env
    | flush => exact intPin_sendData s
  · cases c with
    | poll env =>
      have hk := readLoop_keeps b (fun t => absoluteHeadingPolicy t = absoluteHeadingPolicy s)
        (fun t r h => (policy_loopBody b t r).trans h) env.reports s rfl
      show absoluteHeadingPolicy (healthCheck b (readLoop b s env.reports).1 env).1 = _
      rw [(healthCheck_samples b _ env).2.2.2.2]
      exact hk
    | flush => exact policy_sendData s

/-- One scheduler call against the specification of the consumed samples. -/
theorem step_samples (b : Build Q) (s : Sensor Q F) (c : Call Q F) :
    (step b s c).1.quaternion =
      offsetLast b s.sensorOffset s.quaternion
        (c.primaryRaws s.intPin (absoluteHeadingPolicy s)) ∧
    (step b s c).1.magQuaternion =
      offsetLast b s.sensorOffset s.magQuaternion
        (c.correctionRaws s.intPin (absoluteHeadingPolicy s)) ∧
    (step b s c).1.lastQuatSent =
      (if absoluteHeadingPolicy s = true then
        dedupLast b s.sensorOffset s.lastQuatSent
          (c.primaryRaws s.intPin (absoluteHeadingPolicy s))
       else s.lastQuatSent) := by
  cases c with
  | poll env =>
    have h := motionLoop_samples b s env
    exact ⟨h.1, h.2.1, h.2.2.1⟩
  | flush =>
    have h := sendData_frame s
    refine ⟨h.1, h.2.1, ?_⟩
    show (sendData s).1.lastQuatSent = _
    rw [h.2.2.2]
    simp [Call.primaryRaws, dedupLast]

/-- A sequence of scheduler calls against the specification of the consumed
samples. -/
theorem run_samples (b : Build Q) (cs : List (Call Q F)) :
    ∀ s : Sensor Q F,
      (run b s cs).1.quaternion =
        offsetLast b s.sensorOffset s.quaternion
          (cs.flatMap (Call.primaryRaws s.intPin (absoluteHeadingPolicy s))) ∧
      (run b s cs).1.magQuaternion =
        offsetLast b s.sensorOffset s.magQuaternion
          (cs.flatMap (Call.correctionRaws s.intPin (absoluteHeadingPolicy s))) ∧
      (run b s cs).1.lastQuatSent =
        (if absoluteHeadingPolicy s = true then
          dedupLast b s.sensorOffset s.lastQuatSent
            (cs.flatMap (Call.primaryRaws s.intPin (absoluteHeadingPolicy s)))
         else s.lastQuatSent) := by
  induction cs with
  | nil =>
    intro s
    simp [run, offsetLast, dedupLast]
  | cons c cs ih =>
    intro s
    have hc := step_constants b s c
    have hs := step_samples b s c
    have h := ih (step b s c).1
    rw [hc.1, hc.2.1, hc.2.2, hs.1, hs.2.1, hs.2.2] at h
    simp only [run, List.flatMap_cons, offsetLast_append, dedupLast_append]
    refine ⟨h.1, h.2.1, ?_⟩
    rw [h.2.2]
    split_ifs <;> rfl

theorem run_append (b : Build Q) (cs1 cs2 : List (Call Q F)) :
    ∀ s : Sensor Q F,
      run b s (cs1 ++ cs2) =
        ((run b (run b s cs1).1 cs2).1, (run b s cs1).2 ++ (run b (run b s cs1).1 cs2).2) := by
  induction cs1 with
  | nil => intro s; simp [run]
  | cons c cs1 ih =>
    intro s
    have h := ih (step b s c).1
    show ((run b (step b s c).1 (cs1 ++ cs2)).1,
        (step b s c).2 ++ (run b (step b s c).1 (cs1 ++ cs2)).2) = _
    rw [h]
    simp only [run, List.append_assoc]

end Facts

/-! ## Fault reports -/

section FaultReports

variable {Q F : Type}

/-- C1, as stated, fails: a session is brought up while resetReason answers 1,
so 1 is the recorded baseline; it then goes stale (no data, clock at 2000 ms,
last data at 0 ms) while resetReason still answers 1.  The session is working
and configured, the staleness check fires, and the call emits no PACKET_ERROR
report at all, where the claim asks for exactly one carrying code 1. -/
theorem C1_baseline_not_reported :
    (motionSetup (gridBuild false true LastResetType.signedInt) (freshSensor false false)
        { begin := true, resetReason := 1, millis := 0 }).1.working = true ∧
    (motionSetup (gridBuild false true LastResetType.signedInt) (freshSensor false false)
        { begin := true, resetReason := 1, millis := 0 }).1.configured = true ∧
    isStale (motionSetup (gridBuild false true LastResetType.signedInt) (freshSensor false false)
        { begin := true, resetReason := 1, millis := 0 }).1 2000 = true ∧
    faultReports (motionLoop (gridBuild false true LastResetType.signedInt)
        (motionSetup (gridBuild false true LastResetType.signedInt) (freshSensor false false)
          { begin := true, resetReason := 1, millis := 0 }).1 (noData 2000 1)).2 = [] := by
  decide

/-- C1, amended: after a successful motionSetup the session is working and
configured; if it then goes stale (motionLoop with no data available and the
clock, which has not wrapped, more than 1000 ms past lastData), that first
stale motionLoop emits exactly one PACKET_ERROR report carrying the code c
read from resetReason and the sensorId of the session when c differs from the
baseline code recorded by motionSetup, and no PACKET_ERROR report when c
equals the baseline. -/
theorem C1_first_report (b : Build Q) (s0 : Sensor Q F) (senv : SetupEnv) (env : LoopEnv Q F)
    (hbegin : senv.begin = true) (hnodata : env.reports = [])
    (hstale : senv.millis + 1000 < env.millisCheck) (hclock : env.millisCheck < ULONG_MOD) :
    (motionSetup b s0 senv).1.working = true ∧
    (motionSetup b s0 senv).1.configured = true ∧
    faultReports (motionLoop b (motionSetup b s0 senv).1 env).2 =
      if env.resetReason % 256 = senv.resetReason % 256 then []
      else [(env.resetReason % 256, s0.sensorId)] := by
  have hw : senv.millis + 1000 < ULONG_MOD := lt_trans hstale hclock
  rw [motionLoop_noData b _ env hnodata, faultReports_healthCheck, motionSetup_ok b s0 senv hbegin]
  refine ⟨rfl, rfl, ?_⟩
  rw [isStale_noWrap _ _ hw]
  simp only [hstale, decide_True, Bool.and_self, true_and, ne_eq, Nat.cast_inj, ite_not]

/-- Witness of C1_first_report: baseline code 1 at bring-up, code 4 read when
the session goes stale at 2000 ms; exactly one report (4, 3) is emitted. -/
theorem C1_first_report_witness :
    faultReports (motionLoop (gridBuild false true LastResetType.uint8)
        (motionSetup (gridBuild false true LastResetType.uint8) (freshSensor false false)
          { begin := true, resetReason := 1, millis := 0 }).1 (noData 2000 4)).2 = [(4, 3)] :=
  (C1_first_report (gridBuild false true LastResetType.uint8) (freshSensor false false)
    { begin := true, resetReason := 1, millis := 0 } (noData 2000 4)
    rfl rfl (by decide) (by decide)).2.2

/-- C2: in a sequence of motionLoop calls during which the peripheral never
reports data available, a call emits a PACKET_ERROR report only if the code
read from resetReason differs from the stored lastReset; the report is then
the only one of the call, carries that code and the sensorId, and leaves
lastReset equal to the code.  Hence no two consecutive fault reports of the
sequence carry the same code, and from a state whose stored code is c, calls
that read c emit no report. -/
theorem C2_fault_report_suppression (b : Build Q) (s : Sensor Q F)
    (envs : List (LoopEnv Q F)) (hnodata : ∀ env ∈ envs, env.reports = []) :
    (∀ (t : Sensor Q F) (env : LoopEnv Q F), env ∈ envs →
      ∀ v i : Nat, (v, i) ∈ faultReports (motionLoop b t env).2 →
        v = env.resetReason % 256 ∧ (v : Int) ≠ t.lastReset ∧
        faultReports (motionLoop b t env).2 = [(v, t.sensorId)] ∧
        (motionLoop b t env).1.lastReset = (v : Int)) ∧
    List.Chain' (fun p q : Nat × Nat => p.1 ≠ q.1) (faultReports (runLoops b s envs).2) ∧
    (∀ c : Nat, s.lastReset = (c : Int) → (∀ env ∈ envs, env.resetReason % 256 = c) →
      faultReports (runLoops b s envs).2 = []) := by
  refine ⟨?_, ?_, ?_⟩
  · intro t env hmem v i hv
    have he := hnodata env hmem
    rw [motionLoop_noData b t env he] at hv ⊢
    rw [faultReports_healthCheck] at hv ⊢
    rw [lastReset_healthCheck]
    split_ifs at hv ⊢ with hc
    · simp only [List.mem_singleton, Prod.mk.injEq] at hv
      obtain ⟨rfl, rfl⟩ := hv
      exact ⟨rfl, hc.2, rfl, rfl⟩
    · simp at hv
  · have h := chain_runLoops b envs s hnodata
    have h2 : List.Chain' (fun x y : Int => x ≠ y)
        ((faultReports (runLoops b s envs).2).map (fun p => (p.1 : Int))) :=
      List.Chain'.tail (l := s.lastReset :: _) h
    rw [List.chain'_map] at h2
    exact h2.imp (fun {p q} hpq e => hpq (by rw [e]))
  · intro c hs hc
    exact quiet_runLoops b c envs s hnodata hs hc

/-- Witness of C2_fault_report_suppression: a configured session with stored
code 1 stays without data through four stale cycles that read the codes
1, 4, 4 and 2; the reports are (4, 3) and (2, 3). -/
theorem C2_fault_report_suppression_witness :
    faultReports (runLoops (gridBuild false true LastResetType.signedInt)
        (motionSetup (gridBuild false true LastResetType.signedInt) (freshSensor false false)
          { begin := true, resetReason := 1, millis := 0 }).1
        [noData 2000 1, noData 4000 4, noData 6000 4, noData 8000 2]).2 = [(4, 3), (2, 3)] ∧
    List.Chain' (fun p q : Nat × Nat => p.1 ≠ q.1)
      (faultReports (runLoops (gridBuild false true LastResetType.signedInt)
        (motionSetup (gridBuild false true LastResetType.signedInt) (freshSensor false false)
          { begin := true, resetReason := 1, millis := 0 }).1
        [noData 2000 1, noData 4000 4, noData 6000 4, noData 8000 2]).2) :=
  ⟨by decide,
   (C2_fault_report_suppression (gridBuild false true LastResetType.signedInt)
      (motionSetup (gridBuild false true LastResetType.signedInt) (freshSensor false false)
        { begin := true, resetReason := 1, millis := 0 }).1
      [noData 2000 1, noData 4000 4, noData 6000 4, noData 8000 2]
      (by decide)).2.1⟩

end FaultReports

/-! ## Staleness, recovery and the state query -/

section Health

variable {Q F : Type}

/-- Staleness threshold away from the wrap-around of the counter: a configured,
working session with last-activity timestamp t, t + 1001 below 2^32, that
receives no data is still working after a motionLoop at clock t + 999 and
non-working after a motionLoop at clock t + 1001. -/
theorem staleness_threshold_noWrap (b : Build Q) (s : Sensor Q F) (env : LoopEnv Q F)
    (hconf : s.configured = true) (hwork : s.working = true) (hnodata : env.reports = [])
    (hwrap : s.lastData + 1001 < ULONG_MOD) :
    (env.millisCheck = s.lastData + 999 → (motionLoop b s env).1.working = true) ∧
    (env.millisCheck = s.lastData + 1001 → (motionLoop b s env).1.working = false) := by
  have hwrap0 : s.lastData + 1000 < ULONG_MOD := by omega
  rw [working_motionLoop, hnodata, readLoop_nil, isStale_noWrap s _ hwrap0, hconf, hwork]
  constructor
  · intro h; rw [h]; simp
  · intro h; rw [h]; simp

/-- C3, the code at the wrap-around of the 32 bit counter.  A session brought
up at t = 2^32 - 1000 and polled without data at clock t + 999 = 2^32 - 1 is
non-working after the call, because t + 1000 wraps to 0; a session brought up
at t = 2^32 - 1001 and polled without data when the counter has advanced by
1001 ms, to 0, is still working after the call. -/
theorem C3_threshold_at_wraparound :
    (motionLoop (gridBuild false true LastResetType.signedInt)
      (motionSetup (gridBuild false true LastResetType.signedInt) (freshSensor false false)
        { begin := true, resetReason := 1, millis := 4294966296 }).1
      (noData 4294967295 1)).1.working = false ∧
    (4294966295 + 1001) % ULONG_MOD = 0 ∧
    (motionLoop (gridBuild false true LastResetType.signedInt)
      (motionSetup (gridBuild false true LastResetType.signedInt) (freshSensor false false)
        { begin := true, resetReason := 1, millis := 4294966295 }).1
      (noData 0 1)).1.working = true := by
  decide

/-- C4, as stated, fails: a session is brought up at 0 ms, goes stale at
2000 ms (fault code 4 is reported) and is non-working; at 2100 ms a motionLoop
finds data available, with a fresh quaternion, and is not itself stale.  The
session is still non-working after that call, and getSensorState returns
SENSOR_OFFLINE, not SENSOR_OK. -/
theorem C4_no_recovery_on_data :
    (motionLoop (gridBuild false true LastResetType.signedInt)
      (motionSetup (gridBuild false true LastResetType.signedInt) (freshSensor false false)
        { begin := true, resetReason := 1, millis := 0 }).1 (noData 2000 4)).1.working = false ∧
    isStale (readLoop (gridBuild false true LastResetType.signedInt)
      (motionLoop (gridBuild false true LastResetType.signedInt)
        (motionSetup (gridBuild false true LastResetType.signedInt) (freshSensor false false)
          { begin := true, resetReason := 1, millis := 0 }).1 (noData 2000 4)).1
      [quatReport 2100 { x := 5, y := 0, z := 0, w := 1 }]).1 2100 = false ∧
    (motionLoop (gridBuild false true LastResetType.signedInt)
      (motionLoop (gridBuild false true LastResetType.signedInt)
        (motionSetup (gridBuild false true LastResetType.signedInt) (freshSensor false false)
          { begin := true, resetReason := 1, millis := 0 }).1 (noData 2000 4)).1
      (withData [quatReport 2100 { x := 5, y := 0, z := 0, w := 1 }] 2100 4)).1.working
      = false ∧
    getSensorState (motionLoop (gridBuild false true LastResetType.signedInt)
      (motionLoop (gridBuild false true LastResetType.signedInt)
        (motionSetup (gridBuild false true LastResetType.signedInt) (freshSensor false false)
          { begin := true, resetReason := 1, millis := 0 }).1 (noData 2000 4)).1
      (withData [quatReport 2100 { x := 5, y := 0, z := 0, w := 1 }] 2100 4)).1
      = SensorStatus.SENSOR_OFFLINE := by
  decide

/-- C4, amended: for every session in the non-working state, every later
motionLoop call, also one in which the peripheral reports data available and
which is not itself stale, leaves the session non-working, so that
getSensorState does not return SENSOR_OK after it; the session is working
again only after a new successful motionSetup. -/
theorem C4_working_only_by_setup (b : Build Q) (s : Sensor Q F) (env : LoopEnv Q F)
    (senv : SetupEnv) (hdown : s.working = false) (hbegin : senv.begin = true) :
    (motionLoop b s env).1.working = false ∧
    getSensorState (motionLoop b s env).1 ≠ SensorStatus.SENSOR_OK ∧
    (motionSetup b (motionLoop b s env).1 senv).1.working = true := by
  have hw : (motionLoop b s env).1.working = false := by
    rw [working_motionLoop, hdown, Bool.false_and]
  refine ⟨hw, ?_, ?_⟩
  · unfold getSensorState isWorking
    rw [hw]
    split_ifs <;> simp_all
  · rw [motionSetup_ok b _ senv hbegin]

/-- Witness of C4_working_only_by_setup: a session brought up at 0 ms that has
gone stale at 2000 ms, polled with data available at 2100 ms. -/
theorem C4_working_only_by_setup_witness :
    (motionLoop (gridBuild false true LastResetType.signedInt)
      (motionSetup (gridBuild false true LastResetType.signedInt) (freshSensor false false)
        { begin := true, resetReason := 1, millis := 0 }).1 (noData 2000 4)).1.working = false ∧
    getSensorState (motionLoop (gridBuild false true LastResetType.signedInt)
      (motionLoop (gridBuild false true LastResetType.signedInt)
        (motionSetup (gridBuild false true LastResetType.signedInt) (freshSensor false false)
          { begin := true, resetReason := 1, millis := 0 }).1 (noData 2000 4)).1
      (withData [quatReport 2100 { x := 5, y := 0, z := 0, w := 1 }] 2100 4)).1
      ≠ SensorStatus.SENSOR_OK :=
  ⟨by decide,
   (C4_working_only_by_setup (gridBuild false true LastResetType.signedInt)
      (motionLoop (gridBuild false true LastResetType.signedInt)
        (motionSetup (gridBuild false true LastResetType.signedInt) (freshSensor false false)
          { begin := true, resetReason := 1, millis := 0 }).1 (noData 2000 4)).1
      (withData [quatReport 2100 { x := 5, y := 0, z := 0, w := 1 }] 2100 4)
      { begin := true, resetReason := 1, millis := 2200 } (by decide) rfl).2.1⟩

/-- C5, as stated, fails: a session with baseline code 1 goes stale while
resetReason answers 0.  The call emits the fault report (0, 3), and directly
after it getSensorState returns SENSOR_OFFLINE, not SENSOR_ERROR. -/
theorem C5_code_zero_not_error :
    faultReports (motionLoop (gridBuild false true LastResetType.signedInt)
      (motionSetup (gridBuild false true LastResetType.signedInt) (freshSensor false false)
        { begin := true, resetReason := 1, millis := 0 }).1 (noData 2000 0)).2 = [(0, 3)] ∧
    getSensorState (motionLoop (gridBuild false true LastResetType.signedInt)
      (motionSetup (gridBuild false true LastResetType.signedInt) (freshSensor false false)
        { begin := true, resetReason := 1, millis := 0 }).1 (noData 2000 0)).1
      = SensorStatus.SENSOR_OFFLINE := by
  decide

/-- C5, amended: for every session state, getSensorState returns SENSOR_ERROR
exactly when the stored code lastReset is greater than 0, whatever the working
flag is; otherwise it returns SENSOR_OK if the session is working and
SENSOR_OFFLINE if it is not.  Directly after a motionLoop whose staleness
check has emitted a fault report with code c, getSensorState returns
SENSOR_ERROR for every code c other than 0, and SENSOR_OFFLINE for c = 0. -/
theorem C5_state_query (b : Build Q) (s : Sensor Q F) (env : LoopEnv Q F) (c i : Nat)
    (hrep : (c, i) ∈ faultReports (motionLoop b s env).2) :
    (∀ t : Sensor Q F, (getSensorState t = SensorStatus.SENSOR_ERROR ↔ 0 < t.lastReset) ∧
      (¬ 0 < t.lastReset → getSensorState t =
        if t.working = true then SensorStatus.SENSOR_OK else SensorStatus.SENSOR_OFFLINE)) ∧
    getSensorState (motionLoop b s env).1 =
      if c = 0 then SensorStatus.SENSOR_OFFLINE else SensorStatus.SENSOR_ERROR := by
  constructor
  · intro t
    unfold getSensorState isWorking
    constructor
    · split_ifs <;> simp_all
    · intro h
      split_ifs <;> simp_all
  · rw [faultReports_motionLoop, faultReports_healthCheck] at hrep
    have hl : (motionLoop b s env).1.lastReset =
        (healthCheck b (readLoop b s env.reports).1 env).1.lastReset := rfl
    have hw := working_motionLoop b s env
    rw [lastReset_healthCheck] at hl
    split_ifs at hrep hl with hc
    · simp only [List.mem_singleton, Prod.mk.injEq] at hrep
      obtain ⟨rfl, -⟩ := hrep
      rw [hc.1] at hw
      unfold getSensorState isWorking
      rw [hl, hw]
      by_cases h0 : env.resetReason % 256 = 0
      · simp [h0]
      · have hpos : ((env.resetReason % 256 : Nat) : Int) > 0 := by omega
        rw [if_pos hpos, if_neg h0]
    · simp at hrep

/-- Witness of C5_state_query: baseline code 1, stale cycle reading code 4;
the report (4, 3) is emitted and getSensorState returns SENSOR_ERROR. -/
theorem C5_state_query_witness :
    (4, 3) ∈ faultReports (motionLoop (gridBuild false true LastResetType.uint8)
      (motionSetup (gridBuild false true LastResetType.uint8) (freshSensor false false)
        { begin := true, resetReason := 1, millis := 0 }).1 (noData 2000 4)).2 ∧
    getSensorState (motionLoop (gridBuild false true LastResetType.uint8)
      (motionSetup (gridBuild false true LastResetType.uint8) (freshSensor false false)
        { begin := true, resetReason := 1, millis := 0 }).1 (noData 2000 4)).1
      = SensorStatus.SENSOR_ERROR :=
  ⟨by decide,
   (C5_state_query (gridBuild false true LastResetType.uint8)
      (motionSetup (gridBuild false true LastResetType.uint8) (freshSensor false false)
        { begin := true, resetReason := 1, millis := 0 }).1 (noData 2000 4) 4 3
      (by decide)).2⟩

end Health

/-! ## Flush -/

section Flush

variable {Q F : Type}

/-- C6: when the primary sample is dirty, the magnetometer-correction sample
is dirty and a tap code is pending, a single sendData emits, in this order,
the primary rotation packet (DATA_TYPE_NORMAL, with calibrationAccuracy), one
magnetometer accuracy packet if and only if magnetometer-always-on is set,
the correction rotation packet (DATA_TYPE_CORRECTION, with
magCalibrationAccuracy), the magnetometer accuracy packet and the tap packet
with the pending code, and nothing else; afterwards newData and newMagData
are false and tap is 0. -/
theorem C6_flush_ordering (s : Sensor Q F) (hnew : s.newData = true)
    (hmag : s.newMagData = true) (htap : s.tap ≠ 0) :
    (sendData s).2 =
      Effect.sendRotationData s.quaternion DataType.DATA_TYPE_NORMAL s.calibrationAccuracy
          s.sensorId PacketType.PACKET_ROTATION_DATA ::
        ((if s.useMagnetometerAllTheTime = true then
            [Effect.sendMagnetometerAccuracy s.magneticAccuracyEstimate s.sensorId
               PacketType.PACKET_MAGNETOMETER_ACCURACY]
          else []) ++
         [Effect.sendRotationData s.magQuaternion DataType.DATA_TYPE_CORRECTION
            s.magCalibrationAccuracy s.sensorId PacketType.PACKET_ROTATION_DATA,
          Effect.sendMagnetometerAccuracy s.magneticAccuracyEstimate s.sensorId
            PacketType.PACKET_MAGNETOMETER_ACCURACY,
          Effect.sendByte s.tap s.sensorId PacketType.PACKET_TAP]) ∧
    (sendData s).1.newData = false ∧
    (sendData s).1.newMagData = false ∧
    (sendData s).1.tap = 0 := by
  simp [sendData, sendPrimary, sendCorrection, sendTap, hnew, hmag, htap]

/-- Witness of C6_flush_ordering: a session without magnetometer-always-on
holding a dirty primary sample, a dirty correction sample and tap code 2. -/
theorem C6_flush_ordering_witness :
    (sendData { freshSensor false true with newData := true, newMagData := true, tap := 2 }).2 =
      [Effect.sendRotationData IQuat.one DataType.DATA_TYPE_NORMAL 0 3
         PacketType.PACKET_ROTATION_DATA,
       Effect.sendRotationData IQuat.one DataType.DATA_TYPE_CORRECTION 0 3
         PacketType.PACKET_ROTATION_DATA,
       Effect.sendMagnetometerAccuracy 999 3 PacketType.PACKET_MAGNETOMETER_ACCURACY,
       Effect.sendByte 2 3 PacketType.PACKET_TAP] :=
  (C6_flush_ordering
    { freshSensor false true with newData := true, newMagData := true, tap := 2 }
    rfl rfl (by decide)).1

end Flush

/-! ## Bring-up -/

section Bringup

variable {Q F : Type}

/-- C9, as stated, fails: a BNO085, a variant that supports stabilization, with
magnetometer-always-on, in a build that does not define
BNO_USE_ARVR_STABILIZATION.  A successful motionSetup enables the plain
rotation vector, not the stabilized one of row (true, true); with
magnetometer-always-on off the same build enables the plain game rotation
vector, not the stabilized one of row (false, true). -/
theorem C9_variant_without_build_flag :
    (freshSensor true false).sensorType = ImuType.IMU_BNO085 ∧
    (motionSetup (gridBuild false true LastResetType.signedInt) (freshSensor true false)
      { begin := true, resetReason := 1, millis := 0 }).2 =
      [Effect.serial (SerialLine.connected ImuType.IMU_BNO085 74),
       Effect.enableRotationVector 10,
       Effect.enableTapDetector 100] ∧
    (motionSetup (gridBuild false true LastResetType.signedInt) (freshSensor false false)
      { begin := true, resetReason := 1, millis := 0 }).2 =
      [Effect.serial (SerialLine.connected ImuType.IMU_BNO085 74),
       Effect.enableGameRotationVector 10,
       Effect.enableTapDetector 100] := by
  decide

/-- C9, amended: when imu.begin succeeds, motionSetup enables exactly the
stream of the policy matrix over (magnetometer-always-on, stabilized streams
in use), where stabilized streams are in use if and only if the build defines
BNO_USE_ARVR_STABILIZATION and the variant is BNO085 or BNO086 (the condition
of line 70).  (true, true): the stabilized rotation vector; (true, false):
the rotation vector; (false, true): the stabilized game rotation vector;
(false, false): the game rotation vector; in the two magnetometer-always-off
cases the rotation vector is enabled in addition if and only if
magnetometer-correction is enabled; tap detection is enabled last in every
case, and the only other effect is the serial notice. -/
theorem C9_stream_policy (b : Build Q) (s : Sensor Q F) (env : SetupEnv)
    (hbegin : env.begin = true) :
    (s.useMagnetometerAllTheTime = true → useStabilizedStreams b s = true →
      (motionSetup b s env).2 =
        [Effect.serial (SerialLine.connected s.sensorType s.addr),
         Effect.enableARVRStabilizedRotationVector 10,
         Effect.enableTapDetector 100]) ∧
    (s.useMagnetometerAllTheTime = true → useStabilizedStreams b s = false →
      (motionSetup b s env).2 =
        [Effect.serial (SerialLine.connected s.sensorType s.addr),
         Effect.enableRotationVector 10,
         Effect.enableTapDetector 100]) ∧
    (s.useMagnetometerAllTheTime = false → useStabilizedStreams b s = true →
      (motionSetup b s env).2 =
        [Effect.serial (SerialLine.connected s.sensorType s.addr),
         Effect.enableARVRStabilizedGameRotationVector 10] ++
        (if s.useMagnetometerCorrection = true then [Effect.enableRotationVector 1000]
         else []) ++
        [Effect.enableTapDetector 100]) ∧
    (s.useMagnetometerAllTheTime = false → useStabilizedStreams b s = false →
      (motionSetup b s env).2 =
        [Effect.serial (SerialLine.connected s.sensorType s.addr),
         Effect.enableGameRotationVector 10] ++
        (if s.useMagnetometerCorrection = true then [Effect.enableRotationVector 1000]
         else []) ++
        [Effect.enableTapDetector 100]) ∧
    (useStabilizedStreams b s = true ↔
      b.BNO_USE_ARVR_STABILIZATION = true ∧
        (s.sensorType = ImuType.IMU_BNO085 ∨ s.sensorType = ImuType.IMU_BNO086)) := by
  rw [motionSetup_ok b s env hbegin]
  refine ⟨?_, ?_, ?_, ?_, ?_⟩
  · intro hm hs; simp [enableStreams, hm, hs]
  · intro hm hs; simp [enableStreams, hm, hs]
  · intro hm hs; simp [enableStreams, hm, hs]
  · intro hm hs; simp [enableStreams, hm, hs]
  · simp [useStabilizedStreams]

/-- Witness of C9_stream_policy: a BNO085 in a build with stabilization, no
magnetometer-always-on, magnetometer-correction enabled. -/
theorem C9_stream_policy_witness :
    (motionSetup (gridBuild true true LastResetType.signedInt) (freshSensor false true)
      { begin := true, resetReason := 1, millis := 0 }).2 =
      [Effect.serial (SerialLine.connected ImuType.IMU_BNO085 74),
       Effect.enableARVRStabilizedGameRotationVector 10,
       Effect.enableRotationVector 1000,
       Effect.enableTapDetector 100] :=
  (C9_stream_policy (gridBuild true true LastResetType.signedInt) (freshSensor false true)
    { begin := true, resetReason := 1, millis := 0 } rfl).2.2.1 rfl rfl

/-- C10, as stated, fails: with magnetometer-always-on the absolute-heading
stream is enabled with report interval 10 ms, while the parallel absolute
stream of the magnetometer-always-off case has interval 1000 ms and the
relative-rotation stream has interval 10 ms.  The interval of the always-on
absolute stream is neither that of the parallel stream nor longer than that
of the relative-rotation stream. -/
theorem C10_always_on_is_fast :
    absoluteIntervals (motionSetup (gridBuild true true LastResetType.signedInt)
      (freshSensor true false) { begin := true, resetReason := 1, millis := 0 }).2 = [10] ∧
    absoluteIntervals (motionSetup (gridBuild false true LastResetType.signedInt)
      (freshSensor true false) { begin := true, resetReason := 1, millis := 0 }).2 = [10] ∧
    absoluteIntervals (motionSetup (gridBuild false true LastResetType.signedInt)
      (freshSensor false true) { begin := true, resetReason := 1, millis := 0 }).2 = [1000] ∧
    relativeIntervals (motionSetup (gridBuild false true LastResetType.signedInt)
      (freshSensor false true) { begin := true, resetReason := 1, millis := 0 }).2 = [10] := by
  decide

/-- C10, amended: in motionSetup, when magnetometer-always-on is true the
absolute-heading stream (stabilized or plain) is the only rotation stream and
is enabled with report interval 10 ms; when magnetometer-always-on is false
the relative-rotation stream is enabled with the same interval 10 ms, and the
parallel absolute stream, enabled if and only if magnetometer-correction is
enabled, has the strictly longer interval 1000 ms. -/
theorem C10_cadence (b : Build Q) (s : Sensor Q F) (env : SetupEnv)
    (hbegin : env.begin = true) :
    (s.useMagnetometerAllTheTime = true →
      absoluteIntervals (motionSetup b s env).2 = [10] ∧
      relativeIntervals (motionSetup b s env).2 = []) ∧
    (s.useMagnetometerAllTheTime = false →
      relativeIntervals (motionSetup b s env).2 = [10] ∧
      absoluteIntervals (motionSetup b s env).2 =
        if s.useMagnetometerCorrection = true then [1000] else []) := by
  rw [motionSetup_ok b s env hbegin]
  constructor <;> intro hm <;>
    cases hs : useStabilizedStreams b s <;> cases hc : s.useMagnetometerCorrection <;>
    simp [enableStreams, hm, hs, hc, absoluteIntervals, relativeIntervals]

/-- Witness of C10_cadence: magnetometer-always-on, plain streams. -/
theorem C10_cadence_witness :
    absoluteIntervals (motionSetup (gridBuild false true LastResetType.signedInt)
      (freshSensor true false) { begin := true, resetReason := 1, millis := 0 }).2 = [10] :=
  ((C10_cadence (gridBuild false true LastResetType.signedInt) (freshSensor true false)
    { begin := true, resetReason := 1, millis := 0 } rfl).1 rfl).1

end Bringup

/-! ## Data reduction -/

section Reducer

variable {Q F : Type}

/-- C7, as stated, fails, with OPTIMIZE_UPDATES on and magnetometer-always-on.
First scenario (polled session, one pass per motionLoop): the last value
marked dirty is (0,0,0,1); the raw samples a = (8,0,0,1) and b = (16,0,0,1)
follow one another and are within epsilon of each other; a is not marked
dirty, b is, and the next sendData forwards the value of b.  Second scenario
(interrupt line 14, two passes of one motionLoop): a = (20,0,0,1) is marked
dirty, b = (25,0,0,1) is within epsilon of a and is consumed before the next
sendData; that sendData forwards the value of b, while lastQuatSent holds the
value of a. -/
theorem C7_within_epsilon_forwarded :
    IQuat.equalsWithEpsilon (IQuat.mul { x := 8, y := 0, z := 0, w := 1 } IQuat.one)
      (IQuat.mul { x := 16, y := 0, z := 0, w := 1 } IQuat.one) = true ∧
    (run (gridBuild false true LastResetType.signedInt)
      (motionSetup (gridBuild false true LastResetType.signedInt) (freshSensor true false)
        { begin := true, resetReason := 1, millis := 0 }).1
      [Call.poll (withData [quatReport 10 { x := 8, y := 0, z := 0, w := 1 }] 10 1)]).1.newData
      = false ∧
    (run (gridBuild false true LastResetType.signedInt)
      (motionSetup (gridBuild false true LastResetType.signedInt) (freshSensor true false)
        { begin := true, resetReason := 1, millis := 0 }).1
      [Call.poll (withData [quatReport 10 { x := 8, y := 0, z := 0, w := 1 }] 10 1),
       Call.poll (withData [quatReport 20 { x := 16, y := 0, z := 0, w := 1 }] 20 1)]).1.newData
      = true ∧
    rotationsOf DataType.DATA_TYPE_NORMAL
      (run (gridBuild false true LastResetType.signedInt)
        (motionSetup (gridBuild false true LastResetType.signedInt) (freshSensor true false)
          { begin := true, resetReason := 1, millis := 0 }).1
        [Call.poll (withData [quatReport 10 { x := 8, y := 0, z := 0, w := 1 }] 10 1),
         Call.poll (withData [quatReport 20 { x := 16, y := 0, z := 0, w := 1 }] 20 1),
         Call.flush]).2 = [{ x := 16, y := 0, z := 0, w := 1 }] ∧
    IQuat.equalsWithEpsilon (IQuat.mul { x := 20, y := 0, z := 0, w := 1 } IQuat.one)
      (IQuat.mul { x := 25, y := 0, z := 0, w := 1 } IQuat.one) = true ∧
    rotationsOf DataType.DATA_TYPE_NORMAL
      (run (gridBuild false true LastResetType.signedInt)
        (motionSetup (gridBuild false true LastResetType.signedInt)
          { freshSensor true false with intPin := 14 }
          { begin := true, resetReason := 1, millis := 0 }).1
        [Call.poll (withData [quatReport 10 { x := 20, y := 0, z := 0, w := 1 },
                              quatReport 11 { x := 25, y := 0, z := 0, w := 1 }] 12 1),
         Call.flush]).2 = [{ x := 25, y := 0, z := 0, w := 1 }] ∧
    (run (gridBuild false true LastResetType.signedInt)
        (motionSetup (gridBuild false true LastResetType.signedInt)
          { freshSensor true false with intPin := 14 }
          { begin := true, resetReason := 1, millis := 0 }).1
        [Call.poll (withData [quatReport 10 { x := 20, y := 0, z := 0, w := 1 },
                              quatReport 11 { x := 25, y := 0, z := 0, w := 1 }] 12 1),
         Call.flush]).1.lastQuatSent = { x := 20, y := 0, z := 0, w := 1 } := by
  decide

/-- C7, amended: with OPTIMIZE_UPDATES enabled and the absolute-heading policy
active, the offset-corrected value of a consumed raw sample is compared with
lastQuatSent, the offset-corrected value of the sample last marked dirty.  A
sample within epsilon of lastQuatSent is not marked dirty: newData and
lastQuatSent stay as they are, and if nothing was pending the following
sendData forwards no primary rotation packet.  A sample a not within epsilon
is marked dirty and becomes lastQuatSent; a next sample b within epsilon of a
then leaves lastQuatSent at the value of a, and once a has been flushed b
leaves newData false, so that the sendData after b forwards no primary
rotation packet. -/
theorem C7_dedup (b : Build Q) (s : Sensor Q F) (r r2 : Report Q F)
    (hopt : b.OPTIMIZE_UPDATES = true) (hpol : absoluteHeadingPolicy s = true)
    (hnew : r.hasNewQuat = true) (hnew2 : r2.hasNewQuat = true) :
    (b.equalsWithEpsilon s.lastQuatSent (b.mul r.quat s.sensorOffset) = true →
      (loopBody b s r).1.newData = s.newData ∧
      (loopBody b s r).1.lastQuatSent = s.lastQuatSent ∧
      (s.newData = false →
        rotationsOf DataType.DATA_TYPE_NORMAL (sendData (loopBody b s r).1).2 = [])) ∧
    (b.equalsWithEpsilon s.lastQuatSent (b.mul r.quat s.sensorOffset) = false →
      (loopBody b s r).1.newData = true ∧
      (loopBody b s r).1.lastQuatSent = b.mul r.quat s.sensorOffset ∧
      (b.equalsWithEpsilon (b.mul r.quat s.sensorOffset) (b.mul r2.quat s.sensorOffset) = true →
        (loopBody b (loopBody b s r).1 r2).1.lastQuatSent = b.mul r.quat s.sensorOffset ∧
        (loopBody b (sendData (loopBody b s r).1).1 r2).1.newData = false ∧
        (loopBody b (sendData (loopBody b s r).1).1 r2).1.lastQuatSent
          = b.mul r.quat s.sensorOffset ∧
        rotationsOf DataType.DATA_TYPE_NORMAL
          (sendData (loopBody b (sendData (loopBody b s r).1).1 r2).1).2 = [])) := by
  have h1 := loopBody_absolute b s r hpol hnew
  constructor
  · intro heq
    rw [hopt, heq] at h1
    simp only [Bool.not_true, Bool.or_false, Bool.false_eq_true, if_false] at h1
    refine ⟨h1.2.1, h1.2.2, ?_⟩
    intro hnd
    rw [(rotationsOf_sendData _).1, h1.2.1, hnd]
    simp
  · intro hne
    rw [hopt, hne] at h1
    simp only [Bool.not_true, Bool.not_false, Bool.or_true, if_true] at h1
    refine ⟨h1.2.1, h1.2.2, ?_⟩
    intro heq
    have hp1 : absoluteHeadingPolicy (loopBody b s r).1 = true := by
      rw [policy_loopBody]; exact hpol
    have h2 := loopBody_absolute b (loopBody b s r).1 r2 hp1 hnew2
    rw [sensorOffset_loopBody, h1.2.2, hopt, heq] at h2
    simp only [Bool.not_true, Bool.or_false, Bool.false_eq_true, if_false] at h2
    have hf := sendData_frame (loopBody b s r).1
    have hp2 : absoluteHeadingPolicy (sendData (loopBody b s r).1).1 = true := by
      rw [policy_sendData]; exact hp1
    have h3 := loopBody_absolute b (sendData (loopBody b s r).1).1 r2 hp2 hnew2
    rw [hf.2.2.1, hf.2.2.2, sensorOffset_loopBody, h1.2.2, hopt, heq, newData_sendData] at h3
    simp only [Bool.not_true, Bool.or_false, Bool.false_eq_true, if_false] at h3
    refine ⟨h2.2.2, h3.2.1, h3.2.2, ?_⟩
    rw [(rotationsOf_sendData _).1, h3.2.1]
    simp

/-- Witness of C7_dedup: a session under the absolute-heading policy whose
last value marked dirty is (0,0,0,1) consumes a = (20,0,0,1), which is marked
dirty, and then b = (25,0,0,1), which is within epsilon of a. -/
theorem C7_dedup_witness :
    (loopBody (gridBuild false true LastResetType.signedInt)
      (loopBody (gridBuild false true LastResetType.signedInt) (freshSensor true false)
        (quatReport 10 { x := 20, y := 0, z := 0, w := 1 })).1
      (quatReport 11 { x := 25, y := 0, z := 0, w := 1 })).1.lastQuatSent
      = IQuat.mul { x := 20, y := 0, z := 0, w := 1 } IQuat.one ∧
    rotationsOf DataType.DATA_TYPE_NORMAL
      (sendData (loopBody (gridBuild false true LastResetType.signedInt)
        (sendData (loopBody (gridBuild false true LastResetType.signedInt)
          (freshSensor true false) (quatReport 10 { x := 20, y := 0, z := 0, w := 1 })).1).1
        (quatReport 11 { x := 25, y := 0, z := 0, w := 1 })).1).2 = [] :=
  have h := ((C7_dedup (gridBuild false true LastResetType.signedInt) (freshSensor true false)
    (quatReport 10 { x := 20, y := 0, z := 0, w := 1 })
    (quatReport 11 { x := 25, y := 0, z := 0, w := 1 }) rfl rfl rfl rfl).2 (by decide)).2.2
    (by decide)
  ⟨h.1, h.2.2.2⟩

/-- C8: the mounting offset is applied exactly once to every raw sample.  In
one pass of the read loop a consumed absolute, relative or correction sample
r is stored as r * sensorOffset; under the absolute-heading policy this
product is the value compared with lastQuatSent for dedup and the value
stored as lastQuatSent when the sample is marked dirty.  After one motionLoop
call, and after every sequence of motionLoop and sendData calls, the
quaternion field is r * sensorOffset for the last primary sample r consumed
(the old value if none was), the magQuaternion field is r * sensorOffset for
the last correction sample consumed, and under the absolute-heading policy
lastQuatSent and the dirty mark are those of the dedup test applied to the
products r * sensorOffset of the consumed samples in order.  sendData
forwards the two fields unchanged, also when it is a call inside the
sequence, so every rotation packet carries a quaternion held at the start or
r * sensorOffset for a raw sample r offered in the sequence. -/
theorem C8_mounting_offset (b : Build Q) (s : Sensor Q F) (r : Report Q F)
    (cs : List (Call Q F)) (env : LoopEnv Q F) :
    (absoluteHeadingPolicy s = true → r.hasNewQuat = true →
      (loopBody b s r).1.quaternion = b.mul r.quat s.sensorOffset ∧
      (loopBody b s r).1.newData =
        (s.newData || !b.OPTIMIZE_UPDATES ||
          !b.equalsWithEpsilon s.lastQuatSent (b.mul r.quat s.sensorOffset)) ∧
      (loopBody b s r).1.lastQuatSent =
        (if (!b.OPTIMIZE_UPDATES ||
            !b.equalsWithEpsilon s.lastQuatSent (b.mul r.quat s.sensorOffset)) = true
         then b.mul r.quat s.sensorOffset else s.lastQuatSent)) ∧
    (absoluteHeadingPolicy s = false → r.hasNewGameQuat = true →
      (loopBody b s r).1.quaternion = b.mul r.gameQuat s.sensorOffset) ∧
    (absoluteHeadingPolicy s = false → r.hasNewMagQuat = true →
      (loopBody b s r).1.magQuaternion = b.mul r.magQuat s.sensorOffset) ∧
    (loopBody b s r).1.sensorOffset = s.sensorOffset ∧
    (rotationsOf DataType.DATA_TYPE_NORMAL (sendData s).2 =
        (if s.newData = true then [s.quaternion] else []) ∧
      rotationsOf DataType.DATA_TYPE_CORRECTION (sendData s).2 =
        (if s.newMagData = true then [s.magQuaternion] else [])) ∧
    (∀ (d : DataType) (q : Q), q ∈ rotationsOf d (run b s cs).2 →
      q = s.quaternion ∨ q = s.magQuaternion ∨
        ∃ x ∈ cs.flatMap Call.raws, q = b.mul x s.sensorOffset) ∧
    ((motionLoop b s env).1.quaternion =
        offsetLast b s.sensorOffset s.quaternion
          ((consumed s.intPin env.reports).filterMap
            (primaryRaw (absoluteHeadingPolicy s))) ∧
      (motionLoop b s env).1.magQuaternion =
        offsetLast b s.sensorOffset s.magQuaternion
          ((consumed s.intPin env.reports).filterMap
            (correctionRaw (absoluteHeadingPolicy s))) ∧
      (motionLoop b s env).1.lastQuatSent =
        (if absoluteHeadingPolicy s = true then
          dedupLast b s.sensorOffset s.lastQuatSent
            ((consumed s.intPin env.reports).filterMap
              (primaryRaw (absoluteHeadingPolicy s)))
         else s.lastQuatSent) ∧
      (motionLoop b s env).1.newData =
        (s.newData ||
          (if absoluteHeadingPolicy s = true then
            dedupDirty b s.sensorOffset s.lastQuatSent
              ((consumed s.intPin env.reports).filterMap
                (primaryRaw (absoluteHeadingPolicy s)))
           else !((consumed s.intPin env.reports).filterMap
                (primaryRaw (absoluteHeadingPolicy s))).isEmpty)) ∧
      (motionLoop b s env).1.newMagData =
        (s.newMagData ||
          !((consumed s.intPin env.reports).filterMap
              (correctionRaw (absoluteHeadingPolicy s))).isEmpty)) ∧
    ((run b s cs).1.quaternion =
        offsetLast b s.sensorOffset s.quaternion
          (cs.flatMap (Call.primaryRaws s.intPin (absoluteHeadingPolicy s))) ∧
      (run b s cs).1.magQuaternion =
        offsetLast b s.sensorOffset s.magQuaternion
          (cs.flatMap (Call.correctionRaws s.intPin (absoluteHeadingPolicy s))) ∧
      (run b s cs).1.lastQuatSent =
        (if absoluteHeadingPolicy s = true then
          dedupLast b s.sensorOffset s.lastQuatSent
            (cs.flatMap (Call.primaryRaws s.intPin (absoluteHeadingPolicy s)))
         else s.lastQuatSent)) ∧
    (rotationsOf DataType.DATA_TYPE_NORMAL (sendData (run b s cs).1).2 =
        (if (run b s cs).1.newData = true then
          [offsetLast b s.sensorOffset s.quaternion
            (cs.flatMap (Call.primaryRaws s.intPin (absoluteHeadingPolicy s)))]
         else []) ∧
      rotationsOf DataType.DATA_TYPE_CORRECTION (sendData (run b s cs).1).2 =
        (if (run b s cs).1.newMagData = true then
          [offsetLast b s.sensorOffset s.magQuaternion
            (cs.flatMap (Call.correctionRaws s.intPin (absoluteHeadingPolicy s)))]
         else [])) ∧
    (∀ cs1 cs2 : List (Call Q F),
      (run b s (cs1 ++ Call.flush :: cs2)).2 =
        (run b s cs1).2 ++
          ((sendData (run b s cs1).1).2 ++ (run b (sendData (run b s cs1).1).1 cs2).2)) := by
  have hrun := run_samples b cs s
  have hsend := rotationsOf_sendData (run b s cs).1
  rw [hrun.1, hrun.2.1] at hsend
  refine ⟨fun hpol hnew => loopBody_absolute b s r hpol hnew,
    fun hpol hnew => ((loopBody_relative b s r hpol).1 hnew).1,
    fun hpol hnew => ((loopBody_relative b s r hpol).2.1 hnew).1,
    sensorOffset_loopBody b s r,
    rotationsOf_sendData s,
    run_quaternions b cs s,
    motionLoop_samples b s env,
    hrun,
    hsend,
    ?_⟩
  intro cs1 cs2
  rw [run_append]
  simp only [run, step]

end Reducer

/-! ## Bring-up failure and the end-to-end scenario -/

section Scenario

variable {Q F : Type}

/-- C11, as stated, fails: a session that is working and configured after a
successful motionSetup goes through a second motionSetup in which imu.begin
fails.  The call signals the LED pattern and sends nothing, but the session
is still configured and working after it. -/
theorem C11_failure_keeps_flags :
    (motionSetup (gridBuild false true LastResetType.signedInt)
      (motionSetup (gridBuild false true LastResetType.signedInt) (freshSensor false false)
        { begin := true, resetReason := 1, millis := 0 }).1
      { begin := false, resetReason := 1, millis := 5000 }).2 =
      [Effect.serial (SerialLine.cantConnect ImuType.IMU_BNO085),
       Effect.ledPattern Led.LOADING_LED 50 50 200] ∧
    (motionSetup (gridBuild false true LastResetType.signedInt)
      (motionSetup (gridBuild false true LastResetType.signedInt) (freshSensor false false)
        { begin := true, resetReason := 1, millis := 0 }).1
      { begin := false, resetReason := 1, millis := 5000 }).1.configured = true ∧
    (motionSetup (gridBuild false true LastResetType.signedInt)
      (motionSetup (gridBuild false true LastResetType.signedInt) (freshSensor false false)
        { begin := true, resetReason := 1, millis := 0 }).1
      { begin := false, resetReason := 1, millis := 5000 }).1.working = true := by
  decide

/-- C11, amended: for every session state before the call, if imu.begin fails
then motionSetup signals the fault LED pattern (LOADING_LED, 50, 50, 200)
after the serial error line, enables no report stream and no tap detection,
sends nothing upstream and leaves every field of the session as it was; so a
session that was unconfigured and non-working before the call, as a freshly
constructed one is, is unconfigured and non-working after it. -/
theorem C11_bringup_failure (b : Build Q) (s : Sensor Q F) (env : SetupEnv)
    (hfail : env.begin = false) :
    (motionSetup b s env).2 =
      [Effect.serial (SerialLine.cantConnect s.sensorType),
       Effect.ledPattern Led.LOADING_LED 50 50 200] ∧
    absoluteIntervals (motionSetup b s env).2 = [] ∧
    relativeIntervals (motionSetup b s env).2 = [] ∧
    Effect.enableTapDetector 100 ∉ (motionSetup b s env).2 ∧
    upstream (motionSetup b s env).2 = [] ∧
    (motionSetup b s env).1 = s ∧
    (s.configured = false → s.working = false →
      (motionSetup b s env).1.configured = false ∧
      (motionSetup b s env).1.working = false) := by
  rw [motionSetup_fail b s env hfail]
  refine ⟨rfl, rfl, rfl, ?_, rfl, rfl, fun hc hw => ⟨hc, hw⟩⟩
  simp

/-- Witness of C11_bringup_failure: a freshly constructed session whose
bring-up fails. -/
theorem C11_bringup_failure_witness :
    (motionSetup (gridBuild false true LastResetType.signedInt) (freshSensor false false)
      { begin := false, resetReason := 0, millis := 0 }).1.configured = false ∧
    (motionSetup (gridBuild false true LastResetType.signedInt) (freshSensor false false)
      { begin := false, resetReason := 0, millis := 0 }).1.working = false :=
  (C11_bringup_failure (gridBuild false true LastResetType.signedInt)
    (freshSensor false false) { begin := false, resetReason := 0, millis := 0 } rfl).2.2.2.2.2.2
    rfl rfl

/-- C12, as stated, fails, in a build with OPTIMIZE_UPDATES, for a session
with magnetometer-always-on off, plain streams and magnetometer-correction
disabled.  First scenario: the first motionLoop finds data available with a
fresh quaternion, relative and absolute flag both set, whose offset-corrected
value (0,0,0,1) is within epsilon of lastQuatSent; the primary sample is not
marked dirty and sendData forwards no rotation packet.  Second scenario: the
report has hasNewGameQuat set and hasNewQuat clear; with magnetometer
correction disabled the loop consults hasNewQuat only, so again nothing is
marked dirty and nothing is forwarded. -/
theorem C12_fresh_sample_not_dirty :
    (motionSetup (gridBuild false true LastResetType.signedInt) (freshSensor false false)
      { begin := true, resetReason := 1, millis := 0 }).2 =
      [Effect.serial (SerialLine.connected ImuType.IMU_BNO085 74),
       Effect.enableGameRotationVector 10, Effect.enableTapDetector 100] ∧
    (quatReport 10 IQuat.one).hasNewGameQuat = true ∧
    (motionLoop (gridBuild false true LastResetType.signedInt)
      (motionSetup (gridBuild false true LastResetType.signedInt) (freshSensor false false)
        { begin := true, resetReason := 1, millis := 0 }).1
      (withData [quatReport 10 IQuat.one] 10 1)).1.newData = false ∧
    (sendData (motionLoop (gridBuild false true LastResetType.signedInt)
      (motionSetup (gridBuild false true LastResetType.signedInt) (freshSensor false false)
        { begin := true, resetReason := 1, millis := 0 }).1
      (withData [quatReport 10 IQuat.one] 10 1)).1).2 = [] ∧
    (gameReport 10 { x := 20, y := 0, z := 0, w := 1 }).hasNewGameQuat = true ∧
    (motionLoop (gridBuild false true LastResetType.signedInt)
      (motionSetup (gridBuild false true LastResetType.signedInt) (freshSensor false false)
        { begin := true, resetReason := 1, millis := 0 }).1
      (withData [gameReport 10 { x := 20, y := 0, z := 0, w := 1 }] 10 1)).1.newData
      = false ∧
    (sendData (motionLoop (gridBuild false true LastResetType.signedInt)
      (motionSetup (gridBuild false true LastResetType.signedInt) (freshSensor false false)
        { begin := true, resetReason := 1, millis := 0 }).1
      (withData [gameReport 10 { x := 20, y := 0, z := 0, w := 1 }] 10 1)).1).2 = [] := by
  decide

/-- C12, amended: after a successful motionSetup with magnetometer-always-on
off, stabilized streams not in use and magnetometer-correction disabled, on a
session with no correction sample pending, the game rotation stream is
enabled at 10 ms, no absolute stream is enabled and tap detection is enabled.
A first motionLoop whose first report has hasNewQuat set (the flag the loop
consults when magnetometer-correction is disabled) marks the primary sample
dirty, provided OPTIMIZE_UPDATES is off or the offset-corrected sample is not
within epsilon of lastQuatSent.  The following sendData forwards exactly one
rotation packet, of kind DATA_TYPE_NORMAL with the quaternion field, and
leaves newData false. -/
theorem C12_end_to_end (b : Build Q) (s0 : Sensor Q F) (senv : SetupEnv) (env : LoopEnv Q F)
    (r : Report Q F) (rs : List (Report Q F))
    (hbegin : senv.begin = true) (hmag : s0.useMagnetometerAllTheTime = false)
    (hcorr : s0.useMagnetometerCorrection = false) (hstab : useStabilizedStreams b s0 = false)
    (hpend : s0.newMagData = false) (hdata : env.reports = r :: rs)
    (hnew : r.hasNewQuat = true)
    (hdedup : (!b.OPTIMIZE_UPDATES ||
      !b.equalsWithEpsilon s0.lastQuatSent (b.mul r.quat s0.sensorOffset)) = true) :
    (motionSetup b s0 senv).2 =
      [Effect.serial (SerialLine.connected s0.sensorType s0.addr),
       Effect.enableGameRotationVector 10, Effect.enableTapDetector 100] ∧
    (motionLoop b (motionSetup b s0 senv).1 env).1.newData = true ∧
    rotationsOf DataType.DATA_TYPE_NORMAL
      (sendData (motionLoop b (motionSetup b s0 senv).1 env).1).2 =
        [(motionLoop b (motionSetup b s0 senv).1 env).1.quaternion] ∧
    rotationsOf DataType.DATA_TYPE_CORRECTION
      (sendData (motionLoop b (motionSetup b s0 senv).1 env).1).2 = [] ∧
    (sendData (motionLoop b (motionSetup b s0 senv).1 env).1).1.newData = false := by
  have hset := motionSetup_ok b s0 senv hbegin
  have hpol : absoluteHeadingPolicy (motionSetup b s0 senv).1 = true := by
    rw [hset]; simp [absoluteHeadingPolicy, hcorr]
  have hmagd : (motionSetup b s0 senv).1.newMagData = false := by rw [hset]; exact hpend
  have hlq : (motionSetup b s0 senv).1.lastQuatSent = s0.lastQuatSent := by rw [hset]
  have hoff : (motionSetup b s0 senv).1.sensorOffset = s0.sensorOffset := by rw [hset]
  have hfirst := loopBody_absolute b (motionSetup b s0 senv).1 r hpol hnew
  have hnd1 : (loopBody b (motionSetup b s0 senv).1 r).1.newData = true := by
    rw [hfirst.2.1, hlq, hoff, Bool.or_assoc, hdedup, Bool.or_true]
  have hp1 : absoluteHeadingPolicy (loopBody b (motionSetup b s0 senv).1 r).1 = true := by
    rw [policy_loopBody]; exact hpol
  have hloop : (readLoop b (motionSetup b s0 senv).1 env.reports).1.newData = true := by
    rw [hdata]
    simp only [readLoop]
    split_ifs
    · exact hnd1
    · exact readLoop_keeps b (fun t => absoluteHeadingPolicy t = true ∧ t.newData = true)
        (fun t x h => ⟨by rw [policy_loopBody]; exact h.1,
          (loopBody_absolute_frame b t x h.1).2.2 h.2⟩) rs _ ⟨hp1, hnd1⟩ |>.2
  have hnd : (motionLoop b (motionSetup b s0 senv).1 env).1.newData = true := by
    show (healthCheck b (readLoop b (motionSetup b s0 senv).1 env.reports).1 env).1.newData
      = true
    rw [(healthCheck_samples b _ env).1]; exact hloop
  have hmd : (motionLoop b (motionSetup b s0 senv).1 env).1.newMagData = false := by
    rw [(motionLoop_absolute_frame b _ env hpol).2.1]; exact hmagd
  have hrot := rotationsOf_sendData (motionLoop b (motionSetup b s0 senv).1 env).1
  refine ⟨?_, hnd, ?_, ?_, newData_sendData _⟩
  · rw [hset]; simp [enableStreams, hstab, hmag, hcorr]
  · rw [hrot.1, if_pos hnd]
  · rw [hrot.2, hmd]; simp

/-- Witness of C12_end_to_end: a freshly constructed session, plain streams,
both magnetometer options off; the first report carries the fresh quaternion
(20,0,0,1), which is not within epsilon of lastQuatSent. -/
theorem C12_end_to_end_witness :
    (motionLoop (gridBuild false true LastResetType.signedInt)
      (motionSetup (gridBuild false true LastResetType.signedInt) (freshSensor false false)
        { begin := true, resetReason := 1, millis := 0 }).1
      (withData [quatReport 10 { x := 20, y := 0, z := 0, w := 1 }] 10 1)).1.newData = true ∧
    (sendData (motionLoop (gridBuild false true LastResetType.signedInt)
      (motionSetup (gridBuild false true LastResetType.signedInt) (freshSensor false false)
        { begin := true, resetReason := 1, millis := 0 }).1
      (withData [quatReport 10 { x := 20, y := 0, z := 0, w := 1 }] 10 1)).1).1.newData
      = false :=
  have h := C12_end_to_end (gridBuild false true LastResetType.signedInt)
    (freshSensor false false) { begin := true, resetReason := 1, millis := 0 }
    (withData [quatReport 10 { x := 20, y := 0, z := 0, w := 1 }] 10 1)
    (quatReport 10 { x := 20, y := 0, z := 0, w := 1 }) []
    rfl rfl rfl (by decide) rfl rfl rfl (by decide)
  ⟨h.2.1, h.2.2.2.2⟩

end Scenario

/-! ## Calibration -/

section Calibration

variable {Q F : Type}

/-- The loop of startCalibration on answers whose first true is at position
n. -/
theorem calibrationLoop_first_true (n : Nat) (rest : List Bool) :
    (calibrationLoop (List.replicate n false ++ true :: rest) : Option (List (Effect Q F))) =
      some (List.replicate (n + 1) calibrationCycle).flatten := by
  induction n with
  | zero => simp [calibrationLoop]
  | succ n ih =>
    rw [List.replicate_succ, List.cons_append, calibrationLoop]
    simp only [Bool.false_eq_true, if_false, ih, Option.map_some']
    rw [List.replicate_succ (calibrationCycle : List (Effect Q F)) (n + 1), List.flatten_cons]

/-- The loop of startCalibration on answers that are all false. -/
theorem calibrationLoop_all_false (n : Nat) :
    (calibrationLoop (List.replicate n false) : Option (List (Effect Q F))) = none := by
  induction n with
  | zero => rfl
  | succ n ih =>
    rw [List.replicate_succ, calibrationLoop]
    simp only [Bool.false_eq_true, if_false, ih, Option.map_none']

/-- C13: for every sequence of answers of calibrationComplete whose first
true is at position n, startCalibration returns after the two indicator
calls, one calibrateGyro, exactly n + 1 cycles of (indicator on,
requestCalibrationStatus, pause, getReadings, indicator off, pause) and one
saveCalibration, in this order; and for no number of answers that are all
false has the loop been left. -/
theorem C13_calibration_termination (calibrationType : Int) (n : Nat) (rest : List Bool) :
    (startCalibration calibrationType (List.replicate n false ++ true :: rest) :
        Option (List (Effect Q F))) =
      some ([Effect.ledPattern Led.CALIBRATING_LED 20 20 10,
             Effect.ledBlink Led.CALIBRATING_LED 2000,
             Effect.calibrateGyro] ++
            (List.replicate (n + 1)
              [Effect.ledOn Led.CALIBRATING_LED, Effect.requestCalibrationStatus,
               Effect.delay 20, Effect.getReadings, Effect.ledOff Led.CALIBRATING_LED,
               Effect.delay 20]).flatten ++
            [Effect.saveCalibration]) ∧
    (∀ m : Nat, (startCalibration calibrationType (List.replicate m false) :
        Option (List (Effect Q F))) = none) := by
  constructor
  · simp only [startCalibration, calibrationLoop_first_true, Option.map_some', calibrationCycle]
  · intro m
    simp only [startCalibration, calibrationLoop_all_false, Option.map_none']

end Calibration

/-! ## The read loop, tap events and frame properties -/

section Loop

variable {Q F : Type}

/-- C14: the read loop of one motionLoop call runs the passes of the loop body
over the consumed reports, those up to and including the first after which
line 140 leaves the loop.  On interrupt line 255 at most one report is
consumed, none when no data is available.  On any interrupt line nothing
after the first report with I2CTimedOut is consumed, and when the line is not
255 and no earlier report timed out the state after the loop is the state
after the passes up to and including that report.  Unless the staleness check
fires, the call emits no fault report and returns the state the loop left. -/
theorem C14_poll_loop_bound (b : Build Q) (s : Sensor Q F) (env : LoopEnv Q F)
    (r : Report Q F) (pre post : List (Report Q F)) :
    ((readLoop b s env.reports).1 = passes b s (consumed s.intPin env.reports) ∧
      readLoop b s env.reports = readLoop b s (consumed s.intPin env.reports)) ∧
    (s.intPin = 255 →
      (consumed s.intPin env.reports).length ≤ 1 ∧
      (env.reports = [] → consumed s.intPin env.reports = [])) ∧
    (r.I2CTimedOut = true →
      consumed s.intPin (pre ++ r :: post) = consumed s.intPin (pre ++ [r])) ∧
    (r.I2CTimedOut = true → s.intPin ≠ 255 → (∀ p ∈ pre, p.I2CTimedOut = false) →
      consumed s.intPin (pre ++ r :: post) = pre ++ [r] ∧
      (readLoop b s (pre ++ r :: post)).1 = passes b s (pre ++ [r])) ∧
    (isStale (readLoop b s env.reports).1 env.millisCheck = false →
      faultReports (motionLoop b s env).2 = [] ∧
      (motionLoop b s env).1 = (readLoop b s env.reports).1) := by
  refine ⟨readLoop_consumed b env.reports s, ?_, ?_, ?_, ?_⟩
  · intro hpin
    rw [hpin]
    refine ⟨(consumed_polled env.reports).1, ?_⟩
    intro he
    rw [he]
    rfl
  · intro hr
    exact (consumed_timeout s.intPin r post hr pre).1
  · intro hr hpin hpre
    have hc := (consumed_timeout s.intPin r post hr pre).2 hpin hpre
    refine ⟨hc, ?_⟩
    rw [(readLoop_consumed b _ s).1, hc]
  · intro hfresh
    constructor
    · rw [faultReports_motionLoop, healthCheck_fresh b _ env hfresh]
      rfl
    · show (healthCheck b (readLoop b s env.reports).1 env).1 = _
      rw [healthCheck_fresh b _ env hfresh]

/-- C15: after any sequence of motionLoop calls, the pending tap code is the
code of the most recent consumed report with getTapDetected, and the code
held before if there is none; the next sendData emits exactly one PACKET_TAP
with that code and the sensorId if the code is not 0 and none if it is 0,
and leaves tap at 0, so at most one tap packet is sent per flush. -/
theorem C15_tap_event (b : Build Q) (s : Sensor Q F) (envs : List (LoopEnv Q F)) :
    (runLoops b s envs).1.tap =
      lastTap s.tap (envs.flatMap (fun env => consumed s.intPin env.reports)) ∧
    tapReports (sendData (runLoops b s envs).1).2 =
      (if lastTap s.tap (envs.flatMap (fun env => consumed s.intPin env.reports)) ≠ 0
       then [(lastTap s.tap (envs.flatMap (fun env => consumed s.intPin env.reports)),
              s.sensorId)]
       else []) ∧
    (sendData (runLoops b s envs).1).1.tap = 0 ∧
    (tapReports (sendData (runLoops b s envs).1).2).length ≤ 1 := by
  have ht := tap_runLoops b envs s
  have hs := tapReports_sendData (runLoops b s envs).1
  rw [ht, sensorId_runLoops] at hs
  refine ⟨ht, hs.1, hs.2, ?_⟩
  rw [hs.1]
  split_ifs <;> simp

/-- C17: for every session with configured false, every clock value and every
motionLoop call in which no data is available, the call has no effect at all:
no fault report, no call of setLedStatus, and every field, working, lastReset
and lastData among them, as before. -/
theorem C17_unconfigured_is_inert (b : Build Q) (s : Sensor Q F) (env : LoopEnv Q F)
    (hconf : s.configured = false) (hnodata : env.reports = []) :
    motionLoop b s env = (s, []) ∧
    faultReports (motionLoop b s env).2 = [] ∧
    Effect.setLedStatus LedStatus.LED_STATUS_IMU_ERROR ∉ (motionLoop b s env).2 ∧
    (motionLoop b s env).1.working = s.working ∧
    (motionLoop b s env).1.lastReset = s.lastReset ∧
    (motionLoop b s env).1.lastData = s.lastData := by
  have h : motionLoop b s env = (s, []) := by
    rw [motionLoop_noData b s env hnodata]
    apply healthCheck_fresh
    simp only [isStale, hconf, Bool.and_false]
  rw [h]
  exact ⟨rfl, rfl, List.not_mem_nil _, rfl, rfl, rfl⟩

/-- Witness of C17_unconfigured_is_inert: a freshly constructed session
polled without data at 5000 ms. -/
theorem C17_unconfigured_is_inert_witness :
    motionLoop (gridBuild false true LastResetType.signedInt) (freshSensor false false)
      (noData 5000 4) = (freshSensor false false, []) :=
  (C17_unconfigured_is_inert (gridBuild false true LastResetType.signedInt)
    (freshSensor false false) (noData 5000 4) rfl rfl).1

/-- C18: for every session state, after one sendData the fields newData and
newMagData are false and tap is 0; a second sendData directly after it emits
nothing and changes no field; and sendData never changes quaternion,
magQuaternion, lastQuatSent, working, configured, lastReset or lastData. -/
theorem C18_flush_idempotent (s : Sensor Q F) :
    (sendData s).1.newData = false ∧
    (sendData s).1.newMagData = false ∧
    (sendData s).1.tap = 0 ∧
    sendData (sendData s).1 = ((sendData s).1, []) ∧
    (sendData s).1.quaternion = s.quaternion ∧
    (sendData s).1.magQuaternion = s.magQuaternion ∧
    (sendData s).1.lastQuatSent = s.lastQuatSent ∧
    (sendData s).1.working = s.working ∧
    (sendData s).1.configured = s.configured ∧
    (sendData s).1.lastReset = s.lastReset ∧
    (sendData s).1.lastData = s.lastData := by
  have hc := sendData_clears s
  have hf := sendData_frame s
  have hh := sendData_health s
  exact ⟨hc.1, hc.2.1, hc.2.2, sendData_idle _ hc.1 hc.2.1 hc.2.2, hf.1, hf.2.1, hf.2.2.2,
    hh.1, hh.2.1, hh.2.2.1, hh.2.2.2⟩

/-- C19: when the absolute-heading policy is active (magnetometer-always-on,
or magnetometer-correction disabled), no motionLoop call changes newMagData
or magQuaternion, so starting from a state with newMagData false no sequence
of motionLoop and sendData calls emits a DATA_TYPE_CORRECTION rotation
packet; and when the policy is not active, no motionLoop call changes
lastQuatSent. -/
theorem C19_policy_branches_exclusive (b : Build Q) (s : Sensor Q F) (env : LoopEnv Q F)
    (cs : List (Call Q F)) :
    (absoluteHeadingPolicy s = true →
      (motionLoop b s env).1.newMagData = s.newMagData ∧
      (motionLoop b s env).1.magQuaternion = s.magQuaternion) ∧
    (absoluteHeadingPolicy s = true → s.newMagData = false →
      rotationsOf DataType.DATA_TYPE_CORRECTION (run b s cs).2 = []) ∧
    (absoluteHeadingPolicy s = false →
      (motionLoop b s env).1.lastQuatSent = s.lastQuatSent) :=
  ⟨fun hpol => ⟨(motionLoop_absolute_frame b s env hpol).2.1,
      (motionLoop_absolute_frame b s env hpol).2.2.1⟩,
   fun hpol hmag => run_no_correction b cs s hpol hmag,
   fun hpol => lastQuatSent_motionLoop b s env hpol⟩

end Loop

end BNO080
